import Mathlib

/-!
Verification of the dbank-copilot tool-call safety pipeline.

This file gives a shallow embedding, in Lean 4, of the pure/deterministic parts
of the repository's tool layer:

* `mcp_server/tools/sql_query.py` — SQL read-only validation, dangerous-pattern
  checks, parameter binding, PII masking, row limiting;
* `mcp_server/utils/pii_masking.py` — the standalone PII masking utility;
* `mcp_server/tools/kb_search.py` — the knowledge-base search fallback ladder;
* `mcp_server/tools/kpi_tools.py` — KPI argument validation;
* `fastapi_app/core/tool_orchestrator.py` — tool dispatch and result envelopes;
* `fastapi_app/core/conversation.py` — the conversation store.

External effects (database, HTTP, vector search, clock, uuid generation) are
modelled as explicit oracle parameters; Python exceptions are modelled with
`Except`; Python `None`-or-value fields use `Option` or a dedicated `PyVal.none`
value, matching Python's inability to distinguish "unset" from "set to None".
All machine integers are modelled as `Int`/`Nat` (Python integers are unbounded,
so no wrap-around modelling is needed).
-/

namespace DBank

/-- Python runtime values as they appear in tool arguments and JSON bodies. -/
inductive PyVal where
  | none
  | bool (b : Bool)
  | int (n : Int)
  | str (s : String)
  | list (xs : List PyVal)
  | dict (kvs : List (String × PyVal))
deriving Repr

/-- Python truthiness (`if value:`) for the values above. -/
def pyTruthy : PyVal → Bool
  | PyVal.none => false
  | PyVal.bool b => b
  | PyVal.int n => n ≠ 0
  | PyVal.str s => !s.isEmpty
  | PyVal.list xs => !xs.isEmpty
  | PyVal.dict kvs => !kvs.isEmpty

/-- The single-quote character (written via its code point to keep source plain). -/
def sqc : Char := Char.ofNat 39

/-- Opening curly brace character. -/
def obr : Char := Char.ofNat 123

/-- Closing curly brace character. -/
def cbr : Char := Char.ofNat 125

/-- Python `repr()` of a value (used by `str()` on containers). -/
def pyRepr : PyVal → String
  | PyVal.none => "None"
  | PyVal.bool true => "True"
  | PyVal.bool false => "False"
  | PyVal.int n => toString n
  | PyVal.str s => ⟨[sqc]⟩ ++ s ++ ⟨[sqc]⟩
  | PyVal.list xs =>
      "[" ++ String.intercalate ", " (xs.attach.map (fun x => pyRepr x.1)) ++ "]"
  | PyVal.dict kvs =>
      "\x7b" ++ String.intercalate ", "
        (kvs.attach.map (fun kv => ⟨[sqc]⟩ ++ kv.1.1 ++ ⟨[sqc]⟩ ++ ": " ++ pyRepr kv.1.2))
        ++ "\x7d"
termination_by v => sizeOf v
decreasing_by
  · have h1 := List.sizeOf_lt_of_mem x.2
    simp only [PyVal.list.sizeOf_spec]
    omega
  · have h1 := List.sizeOf_lt_of_mem kv.2
    obtain ⟨⟨a, b⟩, hm⟩ := kv
    simp only [PyVal.dict.sizeOf_spec]
    simp only [Prod.mk.sizeOf_spec] at h1 ⊢
    omega

/-- Python `str()`: the identity on strings, `repr` on everything else
(`str` and `repr` agree on `None`, booleans, integers and containers). -/
def pyStr : PyVal → String
  | PyVal.str s => s
  | v => pyRepr v

/-- Is the value Python `None`? -/
def isNoneVal : PyVal → Bool
  | PyVal.none => true
  | _ => false

/-- ASCII word character: the `\w` class of Python's `re` for the ASCII text
handled by this code base. -/
def isWordChar (c : Char) : Bool :=
  c.isAlphanum || c = '_'

/-- Python `\s` / `str.strip` whitespace (ASCII). -/
def isPySpace (c : Char) : Bool :=
  c = ' ' || c = '\t' || c = '\n' || c = '\r' || c = Char.ofNat 11 || c = Char.ofNat 12

/-- Python `str.strip()` on a character list. -/
def pyStrip (l : List Char) : List Char :=
  ((l.dropWhile isPySpace).reverse.dropWhile isPySpace).reverse

/-- Substring test: `pat in s` for plain (regex-free) patterns. -/
def containsSub (pat : List Char) : List Char → Bool
  | [] => pat.isEmpty
  | c :: cs => pat.isPrefixOf (c :: cs) || containsSub pat cs

/-- Left word boundary against the previous character (`none` = start of text). -/
def nonWordBefore : Option Char → Bool
  | Option.none => true
  | Option.some c => !isWordChar c

/-- Right word boundary for the text following a keyword. -/
def nonWordAfter : List Char → Bool
  | [] => true
  | c :: _ => !isWordChar c

/-- `kw` occurs at the head of `l` and is followed by a word boundary. -/
def wordAt (kw l : List Char) : Bool :=
  kw.isPrefixOf l && nonWordAfter (l.drop kw.length)

/-- Helper scan for `containsWord`, carrying the previous character. -/
def containsWordAux (kw : List Char) (prev : Option Char) : List Char → Bool
  | [] => false
  | c :: cs => (nonWordBefore prev && wordAt kw (c :: cs)) || containsWordAux kw (Option.some c) cs

/-- Whole-word occurrence: Python `re.search(r'\b' + kw + r'\b', s)` for a
keyword made of word characters. -/
def containsWord (kw l : List Char) : Bool :=
  containsWordAux kw Option.none l

theorem length_dropWhile_le (p : Char → Bool) (l : List Char) :
    (l.dropWhile p).length ≤ l.length := by
  induction l with
  | nil => simp [List.dropWhile]
  | cons c cs ih =>
    by_cases h : p c
    · simp only [List.dropWhile, h]
      exact Nat.le_succ_of_le ih
    · simp [List.dropWhile, h]

/-- Fuel-driven scan for `rmLineComments` (fuel bounds the step count; one
unit of fuel per consumed character keeps the recursion structural, so that
concrete instances reduce inside the kernel). -/
def rmLineFuel : Nat → List Char → List Char
  | 0, l => l
  | _ + 1, [] => []
  | fuel + 1, '-' :: '-' :: rest => rmLineFuel fuel (rest.dropWhile (fun c => !(c = '\n')))
  | fuel + 1, c :: cs => c :: rmLineFuel fuel cs

/-- Removal of `--` line comments: Python
`re.sub(r'--.*?$', '', s, flags=re.MULTILINE)` (drops from each `--` to the
end of its line, keeping the newline).  The input length is sufficient fuel:
every step consumes at least one character. -/
def rmLineComments (l : List Char) : List Char :=
  rmLineFuel l.length l

/-- Scan for the closing `*/` of a block comment, returning the remainder. -/
def dropToClose : List Char → Option (List Char)
  | [] => Option.none
  | c :: cs =>
    if c = '*' ∧ cs.head? = Option.some '/' then Option.some (cs.drop 1)
    else dropToClose cs

theorem dropToClose_length : ∀ {l r : List Char}, dropToClose l = Option.some r →
    r.length < l.length := by
  intro l
  induction l with
  | nil => intro r h; simp [dropToClose] at h
  | cons c cs ih =>
    intro r h
    rw [dropToClose] at h
    split at h
    · injection h with h2
      subst h2
      have := List.length_drop 1 cs
      simp only [List.length_cons]
      omega
    · exact Nat.lt_succ_of_lt (ih h)

/-- Fuel-driven scan for `rmBlockComments`. -/
def rmBlockFuel : Nat → List Char → List Char
  | 0, l => l
  | _ + 1, [] => []
  | fuel + 1, '/' :: '*' :: rest =>
    (match dropToClose rest with
     | Option.some r => rmBlockFuel fuel r
     | Option.none => '/' :: '*' :: rest)
  | fuel + 1, c :: cs => c :: rmBlockFuel fuel cs

/-- Removal of `/* ... */` block comments: Python
`re.sub(r'/\*.*?\*/', '', s, flags=re.DOTALL)` (each minimal block removed;
an unclosed opener is left as-is, since the pattern cannot match).  The input
length is sufficient fuel: every step consumes at least one character. -/
def rmBlockComments (l : List Char) : List Char :=
  rmBlockFuel l.length l

-- =====================================================
-- sql_query.py : SQL validation
-- =====================================================

/-- The write-operation denylist of `is_read_only` (`sql_query.py`). -/
def writeKeywords : List String :=
  ["INSERT", "UPDATE", "DELETE", "DROP", "CREATE", "ALTER",
   "TRUNCATE", "REPLACE", "MERGE", "GRANT", "REVOKE",
   "EXEC", "EXECUTE", "CALL", "DO"]

/-- The normalisation pipeline of `is_read_only`: strip, upper-case, remove
line comments, remove block comments. -/
def normalizedSql (query : String) : List Char :=
  rmBlockComments (rmLineComments ((pyStrip query.data).map Char.toUpper))

/-- `is_read_only` from `sql_query.py`: no denylisted keyword as a whole word
in the normalised text, and the normalised text starts with SELECT or WITH. -/
def is_read_only (query : String) : Bool :=
  let normalized := normalizedSql query
  if writeKeywords.any (fun kw => containsWord kw.data normalized) then false
  else "SELECT".data.isPrefixOf normalized || "WITH".data.isPrefixOf normalized

/-- Scan for Python regex `;\s*KW`: a semicolon, optional whitespace, then `kw`. -/
def semiThenKw (kw : List Char) : List Char → Bool
  | [] => false
  | ';' :: rest => kw.isPrefixOf (rest.dropWhile isPySpace) || semiThenKw kw rest
  | _ :: cs => semiThenKw kw cs

/-- `COPY` followed by at least one whitespace character occurs at the head. -/
def copyThenSpaceAt (l : List Char) : Bool :=
  "COPY".data.isPrefixOf l &&
    (match l.drop 4 with
     | c :: _ => isPySpace c
     | [] => false)

/-- Scan for Python regex `copy\s+` (no word boundaries). -/
def hasCopySpace : List Char → Bool
  | [] => false
  | c :: cs => copyThenSpaceAt (c :: cs) || hasCopySpace cs

/-- `INTO`, whitespace, `OUTFILE` with a trailing word boundary, at the head. -/
def intoOutfileAt (l : List Char) : Bool :=
  "INTO".data.isPrefixOf l &&
    (let r := l.drop 4
     !(r.takeWhile isPySpace).isEmpty && wordAt "OUTFILE".data (r.dropWhile isPySpace))

/-- Scan for Python regex `\binto\s+outfile\b` (case handled by upper-casing). -/
def hasIntoOutfileAux (prev : Option Char) : List Char → Bool
  | [] => false
  | c :: cs => (nonWordBefore prev && intoOutfileAt (c :: cs)) || hasIntoOutfileAux (Option.some c) cs

/-- `MAX_QUERY_LENGTH` from `sql_query.py`. -/
def MAX_QUERY_LENGTH : Nat := 10000

/-- `validate_sql_query` from `sql_query.py`: returns an error message, or
`none` when the query passes the dangerous-pattern checks. -/
def validate_sql_query (query : String) : Option String :=
  if (pyStrip query.data).isEmpty then Option.some "Query cannot be empty"
  else if query.length > MAX_QUERY_LENGTH then
    Option.some ("Query exceeds maximum length of " ++ toString MAX_QUERY_LENGTH ++ " characters")
  else
    let u := query.data.map Char.toUpper
    if semiThenKw "SELECT".data u then Option.some "Multiple statements detected"
    else if semiThenKw "WITH".data u then Option.some "Multiple statements detected"
    else if containsSub "PG_SLEEP".data u then Option.some "Sleep functions not allowed"
    else if containsSub "DBLINK".data u then Option.some "Database links not allowed"
    else if hasCopySpace u then Option.some "COPY command not allowed"
    else if containsSub "LO_IMPORT".data u then Option.some "Large object functions not allowed"
    else if containsSub "LO_EXPORT".data u then Option.some "Large object functions not allowed"
    else if hasIntoOutfileAux Option.none u then Option.some "File operations not allowed"
    else if containsWord "LOAD_FILE".data u then Option.some "File operations not allowed"
    else Option.none

-- =====================================================
-- sql_query.py : PII masking
-- =====================================================

/-- `PII_FIELDS` from `sql_query.py`. -/
def PII_FIELDS_SQ : List String :=
  ["email", "phone", "mobile", "ssn", "passport", "id_number",
   "credit_card", "card_number", "account_number", "tax_id",
   "national_id", "drivers_license", "address", "home_address",
   "first_name", "last_name", "full_name", "birth_date", "dob"]

/-- `is_pii_field` from `sql_query.py`. -/
def is_pii_field (field_name : String) : Bool :=
  PII_FIELDS_SQ.any (fun pii => containsSub pii.data (field_name.data.map Char.toLower))

/-- Split at the first occurrence of `sep`: Python `s.split(sep, 1)` when `sep`
is present (first component before, second after the separator). -/
def splitAtFirst (sep : Char) (l : List Char) : List Char × List Char :=
  (l.takeWhile (fun c => !(c = sep)), (l.dropWhile (fun c => !(c = sep))).drop 1)

/-- `mask_value` from `sql_query.py`.  The `local[0]` subscript on an empty
local part is a Python `IndexError`, modelled as `Except.error`. -/
def mask_value_sq (value : PyVal) (field_name : String) : Except String PyVal :=
  if isNoneVal value = true ∨ is_pii_field field_name = false then Except.ok value
  else if containsSub "email".data (field_name.data.map Char.toLower) ∧
       containsSub ['@'] (pyStr value).data then
    (match (splitAtFirst '@' (pyStr value).data).1 with
     | [] => Except.error "IndexError: string index out of range"
     | c :: _ =>
       Except.ok (PyVal.str (⟨[c]⟩ ++ "***@" ++ ⟨(splitAtFirst '@' (pyStr value).data).2⟩)))
  else if containsSub "phone".data (field_name.data.map Char.toLower) ∨
       containsSub "mobile".data (field_name.data.map Char.toLower) then
    (if (pyStr value).data.length ≥ 4 then
      Except.ok (PyVal.str ("***-***-" ++
        ⟨(pyStr value).data.drop ((pyStr value).data.length - 4)⟩))
     else Except.ok (PyVal.str "***"))
  else if (pyStr value).data.length > 2 then
    Except.ok (PyVal.str
      (⟨(pyStr value).data.take 1⟩ ++ ⟨List.replicate ((pyStr value).data.length - 2) '*'⟩ ++
        ⟨(pyStr value).data.drop ((pyStr value).data.length - 1)⟩))
  else Except.ok (PyVal.str "***")

/-- One row of `mask_query_results` (`sql_query.py`): mask each field in order. -/
def maskRowSq : List (String × PyVal) → Except String (List (String × PyVal))
  | [] => Except.ok []
  | (f, v) :: rest =>
    match mask_value_sq v f with
    | Except.error e => Except.error e
    | Except.ok v2 =>
      match maskRowSq rest with
      | Except.error e => Except.error e
      | Except.ok r2 => Except.ok ((f, v2) :: r2)

/-- Helper: mask every row in order. -/
def maskRowsSq : List (List (String × PyVal)) → Except String (List (List (String × PyVal)))
  | [] => Except.ok []
  | row :: rest =>
    match maskRowSq row with
    | Except.error e => Except.error e
    | Except.ok r2 =>
      match maskRowsSq rest with
      | Except.error e => Except.error e
      | Except.ok rs => Except.ok (r2 :: rs)

/-- `mask_query_results` from `sql_query.py` (the variant used by
`execute_sql_query`). -/
def mask_query_results_sq (results : List (List (String × PyVal))) :
    Except String (List (List (String × PyVal))) :=
  match results with
  | [] => Except.ok []
  | _ => maskRowsSq results

-- =====================================================
-- sql_query.py : parameter binding
-- =====================================================

/-- First value for a key in a parameter dictionary (dict keys are unique). -/
def dictLookup (params : List (String × PyVal)) (k : String) : Option PyVal :=
  match params.find? (fun p => p.1 = k) with
  | Option.some p => Option.some p.2
  | Option.none => Option.none

/-- The literal text of a `\x7b\x7bname\x7d\x7d` placeholder. -/
def phPat (n : List Char) : List Char :=
  obr :: obr :: (n ++ cbr :: cbr :: [])

/-- Attempt to match the placeholder regex at the head of the text, returning
the captured name and the remainder after the match. -/
def phMatchAt : List Char → Option (List Char × List Char)
  | c1 :: c2 :: rest =>
    if c1 = obr ∧ c2 = obr then
      match rest.dropWhile isWordChar with
      | d1 :: d2 :: r =>
        if d1 = cbr ∧ d2 = cbr ∧ (rest.takeWhile isWordChar).isEmpty = false then
          Option.some (rest.takeWhile isWordChar, r)
        else Option.none
      | _ => Option.none
    else Option.none
  | _ => Option.none

theorem phMatchAt_length : ∀ {l : List Char} {w r : List Char},
    phMatchAt l = Option.some (w, r) → r.length < l.length := by
  intro l w r h
  match l with
  | [] => simp [phMatchAt] at h
  | [c] => simp [phMatchAt] at h
  | c1 :: c2 :: rest =>
    rw [phMatchAt] at h
    split at h
    case isFalse => simp at h
    case isTrue =>
      split at h
      case h_2 => simp at h
      case h_1 d1 d2 r2 hdrop =>
        split at h
        case isFalse => simp at h
        case isTrue =>
          injection h with h2
          have h3 : r2 = r := congrArg Prod.snd h2
          subst h3
          have h4 := length_dropWhile_le isWordChar rest
          rw [hdrop] at h4
          simp only [List.length_cons] at h4 ⊢
          omega

/-- Fuel-driven scan for `findAllPh`. -/
def findAllPhFuel : Nat → List Char → List (List Char)
  | 0, _ => []
  | _ + 1, [] => []
  | fuel + 1, c :: cs =>
    match phMatchAt (c :: cs) with
    | Option.some (w, r) => w :: findAllPhFuel fuel r
    | Option.none => findAllPhFuel fuel cs

/-- `re.findall(r'\x7b\x7b(\w+)\x7d\x7d', query)`: all placeholder names, in
order of occurrence (non-overlapping leftmost matches).  The input length is
sufficient fuel: every step consumes at least one character. -/
def findAllPh (l : List Char) : List (List Char) :=
  findAllPhFuel l.length l

/-- Python `s.replace(pat, rep, 1)` for a non-empty pattern. -/
def replaceFirstL (pat rep : List Char) : List Char → List Char
  | [] => []
  | c :: cs =>
    if pat.isPrefixOf (c :: cs) then rep ++ (c :: cs).drop pat.length
    else c :: replaceFirstL pat rep cs

/-- The replacement loop of `convert_named_to_positional`: for each matched
name in order, require it in the parameter map, record its value, and replace
the first remaining occurrence of its placeholder with `%s`. -/
def convertFold (params : List (String × PyVal)) :
    List (List Char) → List Char → Except String (List Char × List PyVal)
  | [], q => Except.ok (q, [])
  | w :: ws, q =>
    match dictLookup params ⟨w⟩ with
    | Option.none => Except.error ("Missing parameter: " ++ ⟨w⟩)
    | Option.some v =>
      match convertFold params ws (replaceFirstL (phPat w) "%s".data q) with
      | Except.ok (q2, vs) => Except.ok (q2, v :: vs)
      | Except.error e => Except.error e

/-- `convert_named_to_positional` from `sql_query.py`.  A missing parameter is
the Python `ValueError` raise, modelled as `Except.error`. -/
def convert_named_to_positional (query : String) (parameters : List (String × PyVal)) :
    Except String (String × List PyVal) :=
  let ms := findAllPh query.data
  if ms.isEmpty then Except.ok (query, [])
  else
    match convertFold parameters ms query.data with
    | Except.ok (q, vs) => Except.ok (⟨q⟩, vs)
    | Except.error e => Except.error e

-- =====================================================
-- sql_query.py : validate_parameters and execute_sql_query
-- =====================================================

/-- Python regex `^[a-zA-Z_][a-zA-Z0-9_]*$` on a parameter name. -/
def paramKeyOk (k : String) : Bool :=
  match k.data with
  | [] => false
  | c :: cs => (c.isAlpha || c = '_') && cs.all (fun d => d.isAlphanum || d = '_')

/-- The suspicious substrings rejected inside string parameter values. -/
def suspiciousPatterns : List String :=
  [";", "--", "/*", "*/", "xp_", "sp_"]

/-- The per-entry loop of `validate_parameters` (dict iteration order is
insertion order, modelled by the list order). -/
def validateParamsGo : List (String × PyVal) → Option String
  | [] => Option.none
  | (k, v) :: rest =>
    if paramKeyOk k = false then Option.some ("Invalid parameter name: " ++ k)
    else
      match v with
      | PyVal.str s =>
        if s.length > 1000 then
          Option.some ("Parameter " ++ k ++ " value too long (max 1000 chars)")
        else
          match suspiciousPatterns.find? (fun p => containsSub p.data (s.data.map Char.toLower)) with
          | Option.some p => Option.some ("Suspicious pattern in parameter " ++ k ++ ": " ++ p)
          | Option.none => validateParamsGo rest
      | _ => validateParamsGo rest

/-- `validate_parameters` from `sql_query.py`. -/
def validate_parameters (parameters : List (String × PyVal)) : Option String :=
  validateParamsGo parameters

/-- `MAX_RESULT_ROWS` from `sql_query.py` (environment default 1000). -/
def MAX_RESULT_ROWS : Int := 1000

/-- The `QueryPlan` assembled by `execute_sql_query` before the database round
trip: final query text, positional values, and the effective row cap. -/
structure QueryPlan where
  query : String
  paramValues : List PyVal
  maxRows : Int
deriving Repr

/-- Python `query.rstrip(';')`. -/
def pyRstripSemi (l : List Char) : List Char :=
  (l.reverse.dropWhile (fun c => c = ';')).reverse

/-- The row-cap clamping of `execute_sql_query`: `MAX_RESULT_ROWS` when the
caller passed `None`, otherwise the requested cap clamped from above. -/
def effectiveMaxRows (max_rows : Option Int) : Int :=
  match max_rows with
  | Option.none => MAX_RESULT_ROWS
  | Option.some m => if m > MAX_RESULT_ROWS then MAX_RESULT_ROWS else m

/-- The pre-connection phase of `execute_sql_query` (`sql_query.py`): empty
check, `is_read_only`, `validate_sql_query`, `validate_parameters`, row-cap
clamping, placeholder conversion and LIMIT appending.  Every `Except.error`
here is a `ValueError` raised before any database connection is opened. -/
def executePrepare (query : String) (parameters : Option (List (String × PyVal)))
    (max_rows : Option Int) : Except String QueryPlan :=
  if (pyStrip query.data).isEmpty then Except.error "Query cannot be empty"
  else if is_read_only query = false then
    Except.error "Only SELECT queries are allowed. DELETE, UPDATE, DROP, INSERT, ALTER, and other write operations are forbidden."
  else
    match validate_sql_query query with
    | Option.some e => Except.error ("Query validation failed: " ++ e)
    | Option.none =>
      let paramsList := parameters.getD []
      let paramsTruthy := !paramsList.isEmpty
      match (if paramsTruthy then validate_parameters paramsList else Option.none) with
      | Option.some e => Except.error ("Parameter validation failed: " ++ e)
      | Option.none =>
        let maxRows : Int := effectiveMaxRows max_rows
        match (if paramsTruthy then convert_named_to_positional query paramsList
               else Except.ok (query, ([] : List PyVal))) with
        | Except.error e => Except.error e
        | Except.ok (q, vals) =>
          let q2 :=
            if containsSub "LIMIT".data (q.data.map Char.toUpper) = false ∧ maxRows ≠ 0 then
              ⟨pyRstripSemi q.data⟩ ++ " LIMIT " ++ toString (maxRows + 1)
            else q
          Except.ok ⟨q2, vals, maxRows⟩

/-- The result envelope built by `execute_sql_query` after fetching. -/
structure SqlResult where
  results : List (List (String × PyVal))
  row_count : Nat
  truncated : Bool
deriving Repr

/-- Python `l[:n]` (negative `n` counts from the end, clamped at zero). -/
def pySliceTake (n : Int) (l : List (List (String × PyVal))) : List (List (String × PyVal)) :=
  if 0 ≤ n then l.take n.toNat
  else l.take ((l.length : Int) + n).toNat

/-- The truncation test of `execute_sql_query`: more rows came back than the
effective cap (possible because the appended LIMIT asks for `max_rows + 1`). -/
def sqlTruncated (plan : QueryPlan) (fetched : List (List (String × PyVal))) : Bool :=
  (fetched.length : Int) > plan.maxRows

/-- The `results[:max_rows]` step of `execute_sql_query`, applied only when
the fetch was truncated. -/
def sqlResultsAfterTrunc (plan : QueryPlan)
    (fetched : List (List (String × PyVal))) : List (List (String × PyVal)) :=
  if sqlTruncated plan fetched then pySliceTake plan.maxRows fetched else fetched

/-- The post-fetch phase of `execute_sql_query`: truncation detection against
the `+1` probe row, optional PII masking, and the result envelope. -/
def executePost (plan : QueryPlan) (mask_pii : Bool)
    (fetched : List (List (String × PyVal))) : Except String SqlResult :=
  match (if mask_pii = true ∧ (sqlResultsAfterTrunc plan fetched).isEmpty = false
         then mask_query_results_sq (sqlResultsAfterTrunc plan fetched)
         else Except.ok (sqlResultsAfterTrunc plan fetched)) with
  | Except.error e => Except.error e
  | Except.ok masked => Except.ok ⟨masked, masked.length, sqlTruncated plan fetched⟩

-- =====================================================
-- utils/pii_masking.py : the standalone masking utility
-- =====================================================

/-- `PII_FIELDS` from `utils/pii_masking.py` (category → keyword patterns,
in dict insertion order). -/
def PII_FIELDS_UTILS : List (String × List String) :=
  [("email", ["email", "email_address", "user_email"]),
   ("phone", ["phone", "phone_number", "mobile", "telephone"]),
   ("national_id", ["national_id", "ssn", "id_number", "citizen_id"]),
   ("name", ["full_name", "customer_name", "user_name"]),
   ("address", ["address", "street_address", "home_address"]),
   ("ip_address", ["ip_address", "ip", "ip_addr"])]

/-- `identify_pii_fields` from `utils/pii_masking.py`: first category one of
whose patterns occurs in the lower-cased column name. -/
def identify_pii_fields (column_name : String) : Option String :=
  let low := column_name.data.map Char.toLower
  match PII_FIELDS_UTILS.find? (fun cat => cat.2.any (fun p => containsSub p.data low)) with
  | Option.some cat => Option.some cat.1
  | Option.none => Option.none

/-- `mask_email` from `utils/pii_masking.py`. -/
def mask_email (email : String) : String :=
  if email.isEmpty || containsSub ['@'] email.data = false then email
  else
    let lcl := (splitAtFirst '@' email.data).1
    let domain := (splitAtFirst '@' email.data).2
    if lcl.length ≤ 2 then ⟨List.replicate lcl.length '*'⟩ ++ "@" ++ ⟨domain⟩
    else ⟨lcl.take 2⟩ ++ "***@" ++ ⟨domain⟩

/-- `mask_phone` from `utils/pii_masking.py`. -/
def mask_phone (phone : String) : String :=
  if phone.isEmpty then phone
  else
    let clean := phone.data.filter
      (fun c => !(isPySpace c || c = '-' || c = '(' || c = ')'))
    if clean.length ≤ 4 then ⟨List.replicate clean.length '*'⟩
    else ⟨clean.take 3⟩ ++ "****" ++ ⟨clean.drop (clean.length - 2)⟩

/-- Python `str.split(sep)` with a single-character separator (keeps empties). -/
def splitOnChar (sep : Char) : List Char → List (List Char)
  | [] => [[]]
  | c :: cs =>
    if c = sep then [] :: splitOnChar sep cs
    else
      match splitOnChar sep cs with
      | [] => [[c]]
      | p :: ps => (c :: p) :: ps

/-- `mask_national_id` from `utils/pii_masking.py`. -/
def mask_national_id (national_id : String) : String :=
  if national_id.isEmpty then national_id
  else if containsSub ['-'] national_id.data then
    let parts := splitOnChar '-' national_id.data
    if parts.length ≥ 2 then ⟨parts.headD []⟩ ++ "-****-****"
    else
      if national_id.length ≤ 2 then ⟨List.replicate national_id.length '*'⟩
      else ⟨national_id.data.take 2⟩ ++ "****"
  else
    if national_id.length ≤ 2 then ⟨List.replicate national_id.length '*'⟩
    else ⟨national_id.data.take 2⟩ ++ "****"

theorem dropWhile_head_not (p : Char → Bool) :
    ∀ (l : List Char) (c : Char) (cs : List Char),
      l.dropWhile p = c :: cs → p c = false := by
  intro l
  induction l with
  | nil => intro c cs h; simp [List.dropWhile] at h
  | cons a as ih =>
    intro c cs h
    rw [List.dropWhile_cons] at h
    split at h
    · exact ih c cs h
    · injection h with h1 _
      subst h1
      simp_all

/-- Fuel-driven scan for `splitWs`. -/
def splitWsFuel : Nat → List Char → List (List Char)
  | 0, _ => []
  | fuel + 1, l =>
    match l.dropWhile isPySpace with
    | [] => []
    | c :: cs =>
      ((c :: cs).takeWhile (fun d => !isPySpace d)) ::
        splitWsFuel fuel ((c :: cs).dropWhile (fun d => !isPySpace d))

/-- Python `str.split()` (no argument): split on whitespace runs, no empties.
The input length is sufficient fuel: every round consumes at least one
non-space character. -/
def splitWs (l : List Char) : List (List Char) :=
  splitWsFuel l.length l

/-- `mask_name` from `utils/pii_masking.py`. -/
def mask_name (name : String) : String :=
  if name.isEmpty then name
  else
    let parts := splitWs name.data
    if parts.length ≤ 1 then ⟨name.data.take 1⟩ ++ "***"
    else ⟨parts.headD []⟩ ++ " ***"

/-- `mask_ip_address` from `utils/pii_masking.py`. -/
def mask_ip_address (ip : String) : String :=
  if ip.isEmpty then ip
  else
    let parts := splitOnChar '.' ip.data
    if parts.length = 4 then
      ⟨parts.headD []⟩ ++ "." ++ ⟨(parts.drop 1).headD []⟩ ++ ".*.*"
    else "***"

/-- `mask_value` from `utils/pii_masking.py` (total: no failure mode). -/
def mask_value_utils (value : PyVal) (field_type : String) : PyVal :=
  if isNoneVal value then PyVal.none
  else
    let value_str := pyStr value
    if field_type = "email" then PyVal.str (mask_email value_str)
    else if field_type = "phone" then PyVal.str (mask_phone value_str)
    else if field_type = "national_id" then PyVal.str (mask_national_id value_str)
    else if field_type = "name" then PyVal.str (mask_name value_str)
    else if field_type = "ip_address" then PyVal.str (mask_ip_address value_str)
    else value

/-- Mask one row given the PII columns identified from the first row. -/
def maskRowUtils (piiCols : List (String × String)) (row : List (String × PyVal)) :
    List (String × PyVal) :=
  row.map (fun fv =>
    match piiCols.find? (fun pc => pc.1 = fv.1) with
    | Option.some pc => (fv.1, mask_value_utils fv.2 pc.2)
    | Option.none => fv)

/-- `mask_query_results` from `utils/pii_masking.py`: PII columns are detected
once, on the first row, then every row is masked. -/
def mask_query_results_utils (results : List (List (String × PyVal))) :
    List (List (String × PyVal)) :=
  match results with
  | [] => []
  | first :: _ =>
    let piiCols := (first.map Prod.fst).filterMap
      (fun col => (identify_pii_fields col).map (fun t => (col, t)))
    results.map (maskRowUtils piiCols)

-- =====================================================
-- tools/kb_search.py : knowledge-base search with fallback ladder
-- =====================================================

/-- A raw chunk from `vector_store.search_knowledge_base`, with the keys the
adapter reads via `dict.get` (absent key = `Option.none`).  Similarity scores
are modelled as exact rationals. -/
structure KbRaw where
  title : Option String
  content : Option String
  similarity : Option ℚ
  category : Option String
  filename : Option String
  chunk_index : Option Int
  chunk_title : Option String
  is_critical : Option Bool
  filepath : Option String
deriving Repr, DecidableEq

/-- The formatted chunk returned to the MCP response. -/
structure KbFormatted where
  title : String
  content : String
  similarity : ℚ
  category : String
  filename : String
  chunk_index : Int
  chunk_title : String
  is_critical : Bool
  source : String
deriving Repr, DecidableEq

/-- Python `round(x, 3)` on the similarity score (tie behaviour of binary
floats is immaterial to the ladder's control flow). -/
def round3 (q : ℚ) : ℚ :=
  (round (q * 1000) : ℤ) / 1000

/-- The result-formatting loop of `search_knowledge_base_tool`. -/
def formatKbResult (r : KbRaw) : KbFormatted :=
  { title := r.title.getD "Untitled"
    content := r.content.getD ""
    similarity := round3 (r.similarity.getD 0)
    category := r.category.getD "unknown"
    filename := r.filename.getD ""
    chunk_index := r.chunk_index.getD 0
    chunk_title := r.chunk_title.getD "N/A"
    is_critical := r.is_critical.getD false
    source := r.filepath.getD "" }

/-- Truthiness of an optional string argument (`if category:`). -/
def optStrTruthy : Option String → Bool
  | Option.none => false
  | Option.some s => !s.isEmpty

/-- The valid categories accepted by the adapter. -/
def validCategories : List String :=
  ["product_guide", "support_doc", "reference_doc", "general"]

/-- The fallback block of `search_knowledge_base_tool`: applied only when the
initial call is empty and fallback is enabled; Try 1 lowers the floor to 0.3
(only when the initial floor exceeds 0.3), Try 2 drops the category filter
(only when one was set), Try 3 drops the similarity filter entirely. -/
def kbFallback (sk : String → Int → Option String → ℚ → List KbRaw)
    (query : String) (top_k : Int) (category : Option String)
    (min_similarity : ℚ) (enable_fallback : Bool) : List KbRaw :=
  let results := sk query top_k category min_similarity
  if results.isEmpty ∧ enable_fallback = true then
    let r1 := if min_similarity > 3/10 then sk query top_k category (3/10) else results
    let r2 := if r1.isEmpty ∧ optStrTruthy category then sk query top_k Option.none (3/10)
              else r1
    if r2.isEmpty then sk query top_k Option.none 0 else r2
  else results

/-- `search_knowledge_base_tool` from `kb_search.py`.  The vector search
backend is the oracle `sk query top_k filter_category min_similarity`;
infrastructure failures are outside this model (the oracle is total), so the
adapter's own raises are exactly the input-validation errors. -/
def search_knowledge_base_tool
    (sk : String → Int → Option String → ℚ → List KbRaw)
    (query : String) (top_k : Int) (category : Option String)
    (min_similarity : ℚ) (enable_fallback : Bool) : Except String (List KbFormatted) :=
  if (pyStrip query.data).isEmpty then Except.error "Query cannot be empty"
  else if top_k < 1 ∨ top_k > 20 then Except.error "top_k must be between 1 and 20"
  else if min_similarity < 0 ∨ min_similarity > 1 then
    Except.error "min_similarity must be between 0.0 and 1.0"
  else if optStrTruthy category ∧ (category.getD "") ∉ validCategories then
    Except.error "category must be one of: product_guide, support_doc, reference_doc, general"
  else
    Except.ok ((kbFallback sk query top_k category min_similarity enable_fallback).map
      formatKbResult)

/-- The fallback ladder exactly as the C6 claim words it (rung 1 is
unconditional once the initial call is empty): a reference point for
comparison with `search_knowledge_base_tool`. -/
def claimedFallbackLadder
    (sk : String → Int → Option String → ℚ → List KbRaw)
    (query : String) (top_k : Int) (category : Option String)
    (min_similarity : ℚ) : List KbFormatted :=
  let initial := sk query top_k category min_similarity
  if !initial.isEmpty then initial.map formatKbResult
  else
    let r1 := sk query top_k category (3/10)
    if !r1.isEmpty then r1.map formatKbResult
    else
      let r2 := if optStrTruthy category then sk query top_k Option.none (3/10) else []
      if !r2.isEmpty then r2.map formatKbResult
      else (sk query top_k Option.none 0).map formatKbResult

-- =====================================================
-- tools/kpi_tools.py : KPI lookup adapter
-- =====================================================

/-- Truthiness of an optional integer argument (`if month:` — `0` is falsy). -/
def optIntTruthy : Option Int → Bool
  | Option.none => false
  | Option.some n => n ≠ 0

/-- Python `str.lower()`. -/
def pyLower (s : String) : String :=
  ⟨s.data.map Char.toLower⟩

/-- The accepted severity values. -/
def validSeverities : List String :=
  ["critical", "high", "medium", "low"]

/-- The input-validation prefix of `get_top_root_causes` (`kpi_tools.py`).
`current_year` stands for `datetime.now().year`.  Returns the `ValueError`
message raised, or `none` when all checks pass. -/
def kpiValidate (current_year : Int) (year : Int) (month : Option Int)
    (top_n : Int) (severity_filter : Option String) : Option String :=
  if year < 2020 ∨ year > current_year + 1 then
    Option.some ("Year must be between 2020 and " ++ toString (current_year + 1))
  else if optIntTruthy month ∧ ((month.getD 0) < 1 ∨ (month.getD 0) > 12) then
    Option.some "Month must be between 1 and 12"
  else if top_n < 1 ∨ top_n > 100 then
    Option.some "top_n must be between 1 and 100"
  else if optStrTruthy severity_filter ∧ pyLower (severity_filter.getD "") ∉ validSeverities then
    Option.some "severity_filter must be one of: critical, high, medium, low"
  else Option.none

/-- One row of `analytics_marts.mart_top_root_causes` as fetched by the
adapter (numeric columns may be NULL, hence `Option`). -/
structure MartRow where
  root_cause_name : String
  root_cause_severity : String
  category_name : String
  product_category : String
  total_tickets : Option Int
  open_tickets : Option Int
  resolved_tickets : Option Int
  pct_of_period : Option ℚ
  pct_open : Option ℚ
  avg_resolution_hours : Option ℚ
  median_resolution_hours : Option ℚ
  avg_satisfaction_score : Option ℚ
  satisfaction_rate : Option ℚ
  v12_related_tickets : Option Int
  pct_v12_related : Option ℚ
  created_year : Option Int
  created_month : Option Int
  created_month_name : String
deriving Repr, DecidableEq

/-- `safe_int` from `kpi_tools.py` on a nullable integer column. -/
def safe_int (v : Option Int) : Int := v.getD 0

/-- `safe_float` from `kpi_tools.py` on a nullable numeric column. -/
def safe_float (v : Option ℚ) : ℚ := v.getD 0

/-- The formatted record built per mart row by `get_top_root_causes`
(sub-dictionaries flattened into one record). -/
structure RootCauseRec where
  root_cause : String
  severity : String
  category : String
  product_category : String
  total_tickets : Int
  open_tickets : Int
  resolved_tickets : Int
  pct_of_period : ℚ
  pct_open : ℚ
  avg_resolution_hours : ℚ
  median_resolution_hours : ℚ
  avg_satisfaction : ℚ
  satisfaction_rate : ℚ
  v12_tickets : Int
  pct_v12 : ℚ
  year : Int
  month : Int
  month_name : String
deriving Repr, DecidableEq

/-- The per-row formatting of `get_top_root_causes`. -/
def formatRootCause (row : MartRow) : RootCauseRec :=
  { root_cause := row.root_cause_name
    severity := row.root_cause_severity
    category := row.category_name
    product_category := row.product_category
    total_tickets := safe_int row.total_tickets
    open_tickets := safe_int row.open_tickets
    resolved_tickets := safe_int row.resolved_tickets
    pct_of_period := safe_float row.pct_of_period
    pct_open := safe_float row.pct_open
    avg_resolution_hours := safe_float row.avg_resolution_hours
    median_resolution_hours := safe_float row.median_resolution_hours
    avg_satisfaction := safe_float row.avg_satisfaction_score
    satisfaction_rate := safe_float row.satisfaction_rate
    v12_tickets := safe_int row.v12_related_tickets
    pct_v12 := safe_float row.pct_v12_related
    year := safe_int row.created_year
    month := safe_int row.created_month
    month_name := row.created_month_name }

/-- The WHERE/ORDER/LIMIT filter tuple bound into the mart query: year filter,
optional month, optional category, optional lower-cased severity, optional
minimum ticket count, and the LIMIT. -/
structure MartFilters where
  year : Int
  month : Option Int
  category : Option String
  severity : Option String
  min_tickets : Option Int
  limit : Int
deriving Repr, DecidableEq

/-- `get_top_root_causes` from `kpi_tools.py`: validation, filter assembly
(each filter added only when its argument is truthy), the database round trip
(oracle `mart`), and per-row formatting.  `Except.error` is the `ValueError`
raised before any connection is opened. -/
def get_top_root_causes (current_year : Int)
    (mart : MartFilters → List MartRow)
    (year : Int) (month : Option Int) (top_n : Int)
    (category_filter : Option String) (severity_filter : Option String)
    (min_tickets : Int) : Except String (List RootCauseRec) :=
  match kpiValidate current_year year month top_n severity_filter with
  | Option.some e => Except.error e
  | Option.none =>
    let filters : MartFilters :=
      { year := year
        month := if optIntTruthy month then month else Option.none
        category := if optStrTruthy category_filter then category_filter else Option.none
        severity := if optStrTruthy severity_filter then
            Option.some (pyLower (severity_filter.getD "")) else Option.none
        min_tickets := if min_tickets > 0 then Option.some min_tickets else Option.none
        limit := top_n }
    Except.ok ((mart filters).map formatRootCause)

-- =====================================================
-- fastapi_app/core/tool_orchestrator.py
-- =====================================================

/-- The pydantic `ToolCall` record.  `result` is `Optional[Any]` initialised
to `None`; Python cannot distinguish "unset" from "set to None", so the field
is a `PyVal` and `PyVal.none` means unpopulated. -/
structure ToolCallR where
  tool_name : String
  parameters : List (String × PyVal)
  result : PyVal
  execution_time : Option ℚ
  error : Option String
deriving Repr

/-- First value for a key in a string-to-string mapping. -/
def strLookup (m : List (String × String)) (k : String) : Option String :=
  match m.find? (fun p => p.1 = k) with
  | Option.some p => Option.some p.2
  | Option.none => Option.none

/-- `mcp_tool_map` from `ToolOrchestrator.execute_tool`. -/
def mcpToolMap : List (String × String) :=
  [("sql_query", "sql.query"),
   ("kb_search", "kb.search"),
   ("kpi_top_root_causes", "kpi.top_root_causes")]

/-- Python `int()` on a tool-argument value (raises on non-numeric input). -/
def pyInt : PyVal → Except String Int
  | PyVal.int n => Except.ok n
  | PyVal.bool b => Except.ok (if b then 1 else 0)
  | PyVal.str s =>
    let t := pyStrip s.data
    let core := match t with
      | '-' :: ds => if ds ≠ [] ∧ ds.all Char.isDigit then
          Option.some (-(Int.ofNat (String.toNat! ⟨ds⟩))) else Option.none
      | '+' :: ds => if ds ≠ [] ∧ ds.all Char.isDigit then
          Option.some (Int.ofNat (String.toNat! ⟨ds⟩)) else Option.none
      | ds => if ds ≠ [] ∧ ds.all Char.isDigit then
          Option.some (Int.ofNat (String.toNat! ⟨ds⟩)) else Option.none
    match core with
    | Option.some n => Except.ok n
    | Option.none => Except.error ("invalid literal for int() with base 10: " ++ s)
  | PyVal.none => Except.error "int() argument must be a string or a number, not NoneType"
  | _ => Except.error "int() argument must be a string or a number"

/-- Days per month for `datetime.strptime` validation. -/
def daysInMonth (y m : Int) : Int :=
  if m = 2 then (if y % 4 = 0 ∧ (y % 100 ≠ 0 ∨ y % 400 = 0) then 29 else 28)
  else if m = 4 ∨ m = 6 ∨ m = 9 ∨ m = 11 then 30
  else 31

/-- `datetime.strptime(value, "%Y-%m-%d")`, as used (and silently discarded on
failure) by the KPI argument mapping: returns `(year, month, day)` or `none`
on any parse/validation failure (including a non-string input). -/
def parseDateYMD : PyVal → Option (Int × Int × Int)
  | PyVal.str s =>
    match splitOnChar '-' s.data with
    | [ys, ms, ds] =>
      if ys ≠ [] ∧ ys.length ≤ 4 ∧ ys.all Char.isDigit ∧
         ms ≠ [] ∧ ms.length ≤ 2 ∧ ms.all Char.isDigit ∧
         ds ≠ [] ∧ ds.length ≤ 2 ∧ ds.all Char.isDigit then
        let y : Int := Int.ofNat (String.toNat! ⟨ys⟩)
        let m : Int := Int.ofNat (String.toNat! ⟨ms⟩)
        let d : Int := Int.ofNat (String.toNat! ⟨ds⟩)
        if 1 ≤ y ∧ 1 ≤ m ∧ m ≤ 12 ∧ 1 ≤ d ∧ d ≤ daysInMonth y m then
          Option.some (y, m, d)
        else Option.none
      else Option.none
    | _ => Option.none
  | _ => Option.none

/-- Falsiness of the Python `year`/`month` local variables in the KPI mapping
(`if not year:` — both `None` and `0` are falsy). -/
def optIntFalsy : Option Int → Bool
  | Option.none => true
  | Option.some n => n = 0

/-- The `kpi_top_root_causes` argument-mapping block of
`ToolOrchestrator.execute_tool`: derives `year`/`month` from explicit
arguments or from `start_date`/`end_date`, then assembles the MCP parameter
dictionary.  `Except.error` models an exception escaping the block (caught by
the surrounding `try`). -/
def kpiMapArgs (args : List (String × PyVal)) : Except String (List (String × PyVal)) :=
  let get := fun k => (dictLookup args k).getD PyVal.none
  (do
    let year0 : Option Int ←
      if pyTruthy (get "year") then (pyInt (get "year")).map Option.some
      else Except.ok Option.none
    let month0 : Option Int ←
      if pyTruthy (get "month") then (pyInt (get "month")).map Option.some
      else Except.ok Option.none
    let year1 : Option Int :=
      if optIntFalsy year0 ∧ pyTruthy (get "start_date") then
        match parseDateYMD (get "start_date") with
        | Option.some (yy, _, _) => Option.some yy
        | Option.none => year0
      else year0
    let month1 : Option Int :=
      if pyTruthy (get "start_date") ∧ pyTruthy (get "end_date") then
        match parseDateYMD (get "start_date"), parseDateYMD (get "end_date") with
        | Option.some (ys, ms, _), Option.some (ye, me, _) =>
          if ys = ye ∧ ms = me then Option.some ms else month0
        | _, _ => month0
      else month0
    let base : List (String × PyVal) ←
      if optIntFalsy year1 then
        Except.error "kpi_top_root_causes requires a 'year' or 'start_date' that includes a year"
      else Except.ok [("year", PyVal.int (year1.getD 0))]
    let base := if optIntTruthy month1 then base ++ [("month", PyVal.int (month1.getD 0))]
                else base
    let base ←
      if pyTruthy (get "top_n") then
        (pyInt (get "top_n")).map (fun tn => base ++ [("top_n", PyVal.int tn)])
      else Except.ok base
    let base := if pyTruthy (get "category") then base ++ [("category_filter", get "category")]
                else base
    Except.ok base)

/-- The `mcp_body` construction of `ToolOrchestrator.execute_tool`: the KPI
tool gets its arguments remapped, every other tool's arguments are wrapped
under `parameters` as-is. -/
def mcpBodyFor (tool_name mcp_tool_id : String)
    (args : List (String × PyVal)) : Except String PyVal :=
  if tool_name = "kpi_top_root_causes" then
    (kpiMapArgs args).map (fun ps =>
      PyVal.dict [("tool", PyVal.str mcp_tool_id), ("parameters", PyVal.dict ps)])
  else
    Except.ok (PyVal.dict [("tool", PyVal.str mcp_tool_id),
                           ("parameters", PyVal.dict args)])

/-- The body of the `try` block of `ToolOrchestrator.execute_tool`: tool-name
routing, request-body construction, and the HTTP round trip (oracle
`post url body`, whose `Except.error` covers transport and non-2xx failures). -/
def executeToolBody (post : String → PyVal → Except String PyVal)
    (mcp_server_url : String)
    (tool_name : String) (args : List (String × PyVal)) : Except String PyVal :=
  match strLookup mcpToolMap tool_name with
  | Option.none => Except.error ("Unknown tool: " ++ tool_name)
  | Option.some mcp_tool_id =>
    match mcpBodyFor tool_name mcp_tool_id args with
    | Except.error e => Except.error e
    | Except.ok mcp_body => post (mcp_server_url ++ "/tools/call") mcp_body

/-- `ToolOrchestrator.execute_tool`: runs the body and catches every exception
into the `error` field of the returned `ToolCall`.  The wall-clock
`execution_time` is abstracted to `0`. -/
def execute_tool (post : String → PyVal → Except String PyVal)
    (mcp_server_url : String)
    (tool_name : String) (args : List (String × PyVal)) : ToolCallR :=
  match executeToolBody post mcp_server_url tool_name args with
  | Except.ok r =>
    { tool_name := tool_name, parameters := args, result := r,
      execution_time := Option.some 0, error := Option.none }
  | Except.error e =>
    { tool_name := tool_name, parameters := args, result := PyVal.none,
      execution_time := Option.some 0, error := Option.some e }

/-- `ToolOrchestrator.execute_tools`: sequential execution of the requested
calls, results collected in request order. -/
def execute_tools (post : String → PyVal → Except String PyVal)
    (mcp_server_url : String)
    (tool_calls : List (String × List (String × PyVal))) : List ToolCallR :=
  tool_calls.map (fun tc => execute_tool post mcp_server_url tc.1 tc.2)

-- =====================================================
-- fastapi_app/core/conversation.py
-- =====================================================

/-- A conversation message (fields relevant to the store's behaviour). -/
structure Msg where
  role : String
  content : String
deriving Repr, DecidableEq

/-- A conversation record.  Timestamps are abstract instants in hours. -/
structure Conversation where
  conversation_id : String
  messages : List Msg
  updated_at : Nat
deriving Repr, DecidableEq

/-- The `ConversationManager` state. -/
structure ConvManager where
  conversations : List (String × Conversation)
  max_history : Nat
  ttl_hours : Nat
deriving Repr, DecidableEq

/-- Dictionary lookup in the conversation store. -/
def convLookup (store : List (String × Conversation)) (k : String) : Option Conversation :=
  match store.find? (fun p => p.1 = k) with
  | Option.some p => Option.some p.2
  | Option.none => Option.none

/-- `_is_expired`: now is past `updated_at` plus the time-to-live. -/
def isExpired (ttl_hours : Nat) (now : Nat) (c : Conversation) : Bool :=
  now > c.updated_at + ttl_hours

/-- `get_conversation`: `none` when absent or expired; an expired entry is
deleted from the store as a side effect. -/
def getConversation (mgr : ConvManager) (now : Nat) (conversation_id : String) :
    Option Conversation × ConvManager :=
  match convLookup mgr.conversations conversation_id with
  | Option.none => (Option.none, mgr)
  | Option.some c =>
    if isExpired mgr.ttl_hours now c then
      (Option.none,
       { mgr with conversations := mgr.conversations.filter (fun p => !(p.1 = conversation_id)) })
    else (Option.some c, mgr)

/-- `create_conversation`: stores a fresh empty conversation under the id
generated from `uuid4` (passed in as `new_id`). -/
def createConversation (mgr : ConvManager) (new_id : String) (now : Nat) : ConvManager :=
  { mgr with conversations := mgr.conversations ++ [(new_id, ⟨new_id, [], now⟩)] }

/-- Python `l[-k:]` on the message list (`k = 0` yields the whole list). -/
def pyTakeLast (k : Nat) (l : List Msg) : List Msg :=
  if k = 0 then l else l.drop (l.length - k)

/-- The append-and-trim step of `add_message` on one conversation. -/
def appendTrim (max_history : Nat) (now : Nat) (m : Msg) (c : Conversation) : Conversation :=
  let msgs := c.messages ++ [m]
  let msgs :=
    if msgs.length > max_history then
      msgs.filter (fun x => x.role = "system") ++
        pyTakeLast max_history (msgs.filter (fun x => !(x.role = "system")))
    else msgs
  { c with messages := msgs, updated_at := now }

/-- Replace the conversation stored under `k`. -/
def storeUpdate (store : List (String × Conversation)) (k : String)
    (f : Conversation → Conversation) : List (String × Conversation) :=
  store.map (fun p => if p.1 = k then (p.1, f p.2) else p)

/-- `ConversationManager.add_message`.  When the conversation is missing or
expired, the code calls `create_conversation()` — which stores a fresh
conversation under a NEW uuid-based id (`new_id`) — and then subscripts the
store with the original `conversation_id`; the resulting Python `KeyError` is
modelled as `Except.error`, and the mutated manager state is returned
alongside it (the Python exception leaves the fresh conversation behind). -/
def addMessage (mgr : ConvManager) (new_id : String) (now : Nat)
    (conversation_id role content : String) : ConvManager × Except String Msg :=
  match (getConversation mgr now conversation_id).1 with
  | Option.some _ =>
    ({ (getConversation mgr now conversation_id).2 with conversations :=
        (storeUpdate (getConversation mgr now conversation_id).2.conversations conversation_id
          (appendTrim (getConversation mgr now conversation_id).2.max_history now
            ⟨role, content⟩)) },
     Except.ok ⟨role, content⟩)
  | Option.none =>
    match convLookup (createConversation (getConversation mgr now conversation_id).2
        new_id now).conversations conversation_id with
    | Option.none =>
      (createConversation (getConversation mgr now conversation_id).2 new_id now,
       Except.error ("KeyError: " ++ conversation_id))
    | Option.some _ =>
      ({ createConversation (getConversation mgr now conversation_id).2 new_id now with
          conversations :=
          (storeUpdate (createConversation (getConversation mgr now conversation_id).2
              new_id now).conversations conversation_id
            (appendTrim mgr.max_history now ⟨role, content⟩)) },
       Except.ok ⟨role, content⟩)

-- =====================================================
-- Spec-side reference definitions (used to state claims)
-- =====================================================

/-- Fuel-driven scan stripping single-quoted literals. -/
def stripQuotedFuel : Nat → List Char → List Char
  | 0, l => l
  | _ + 1, [] => []
  | fuel + 1, c :: cs =>
    if c = sqc then stripQuotedFuel fuel (cs.dropWhile (fun d => !(d = sqc))).tail
    else c :: stripQuotedFuel fuel cs

/-- Spec-side reading for C1/C7: drop the contents of single-quoted SQL string
literals, so keyword occurrences inside them do not count. -/
def stripQuotedLiterals (l : List Char) : List Char :=
  stripQuotedFuel l.length l

/-- Spec-side reading of "contains `kw` as a whole word outside quoted
literals" (case-insensitive). -/
def specContainsWordOutsideQuotes (kw : String) (q : String) : Bool :=
  containsWord kw.data (stripQuotedLiterals (q.data.map Char.toUpper))

/-- Spec-side reading of "the query contains an explicit row-limiting clause":
`LIMIT` occurs as a whole word (case-insensitive). -/
def specHasRowLimitClause (q : String) : Bool :=
  containsWord "LIMIT".data (q.data.map Char.toUpper)

-- =====================================================
-- Shared lemmas
-- =====================================================

theorem convLookup_filter_ne (store : List (String × Conversation)) (cid : String) :
    convLookup (store.filter (fun p => !(p.1 = cid))) cid = Option.none := by
  unfold convLookup
  have h : (store.filter (fun p => !(p.1 = cid))).find? (fun p => p.1 = cid) = Option.none := by
    rw [List.find?_eq_none]
    intro x hx
    rw [List.mem_filter] at hx
    simpa using hx.2
  rw [h]

theorem getConversation_none_lookup (mgr : ConvManager) (now : Nat) (cid : String)
    (h : (getConversation mgr now cid).1 = Option.none) :
    convLookup (getConversation mgr now cid).2.conversations cid = Option.none := by
  unfold getConversation at h ⊢
  cases hl : convLookup mgr.conversations cid with
  | none => simp [hl]
  | some c =>
    by_cases he : isExpired mgr.ttl_hours now c
    · dsimp only
      simp only [he, if_true]
      exact convLookup_filter_ne mgr.conversations cid
    · simp [hl, he] at h

theorem convLookup_append_single (store : List (String × Conversation))
    (k : String) (c : Conversation) (cid : String)
    (h1 : convLookup store cid = Option.none) (h2 : ¬(k = cid)) :
    convLookup (store ++ [(k, c)]) cid = Option.none := by
  unfold convLookup at h1 ⊢
  rw [List.find?_append]
  cases hf : store.find? (fun p => p.1 = cid) with
  | some p => rw [hf] at h1; simp at h1
  | none => simp [List.find?, h2]

theorem maskRowsSq_length : ∀ (rows m : List (List (String × PyVal))),
    maskRowsSq rows = Except.ok m → m.length = rows.length := by
  intro rows
  induction rows with
  | nil => intro m h; unfold maskRowsSq at h; injection h with h2; subst h2; rfl
  | cons row rest ih =>
    intro m h
    unfold maskRowsSq at h
    cases h1 : maskRowSq row with
    | error e => rw [h1] at h; exact absurd h (by simp)
    | ok r2 =>
      rw [h1] at h
      cases h2 : maskRowsSq rest with
      | error e => rw [h2] at h; exact absurd h (by simp)
      | ok rs =>
        rw [h2] at h
        injection h with h3
        subst h3
        simp [ih rs h2]

theorem mask_query_results_sq_length (rows m : List (List (String × PyVal)))
    (h : mask_query_results_sq rows = Except.ok m) : m.length = rows.length := by
  unfold mask_query_results_sq at h
  cases rows with
  | nil => injection h with h2; subst h2; rfl
  | cons row rest => exact maskRowsSq_length _ _ h

theorem pySliceTake_length_le (n : Int) (hn : 0 ≤ n) (l : List (List (String × PyVal))) :
    ((pySliceTake n l).length : Int) ≤ n := by
  unfold pySliceTake
  rw [if_pos hn]
  have h := List.length_take n.toNat l
  have h2 : (n.toNat : Int) = n := Int.toNat_of_nonneg hn
  omega

theorem executePost_ok {plan : QueryPlan} {mask_pii : Bool}
    {fetched : List (List (String × PyVal))} {res : SqlResult}
    (h : executePost plan mask_pii fetched = Except.ok res) :
    res.row_count = res.results.length ∧
    res.truncated = sqlTruncated plan fetched ∧
    res.results.length = (sqlResultsAfterTrunc plan fetched).length := by
  unfold executePost at h
  cases hm : (if mask_pii = true ∧ (sqlResultsAfterTrunc plan fetched).isEmpty = false
      then mask_query_results_sq (sqlResultsAfterTrunc plan fetched)
      else Except.ok (sqlResultsAfterTrunc plan fetched)) with
  | error e =>
    rw [hm] at h
    exact absurd h (by simp)
  | ok masked =>
    rw [hm] at h
    injection h with hres
    subst hres
    have hlenm : masked.length = (sqlResultsAfterTrunc plan fetched).length := by
      by_cases hc : (mask_pii = true ∧ (sqlResultsAfterTrunc plan fetched).isEmpty = false)
      · rw [if_pos hc] at hm
        exact mask_query_results_sq_length _ _ hm
      · rw [if_neg hc] at hm
        injection hm with hm2
        rw [hm2]
    exact ⟨rfl, rfl, hlenm⟩

-- =====================================================
-- Claim theorems
-- =====================================================

/-- C4 counterexample evidence (code bug): masking a result row whose `email`
field holds a value with an empty local part (`"@example.com"`) makes
`sql_query.py`'s `mask_query_results` raise `IndexError` (the `local[0]`
subscript), while the sibling utility `utils/pii_masking.py` handles the very
same row without failing — so the no-failure-mode contract is the intent and
the `sql_query.py` code is the slip. -/
theorem c4_masking_failure :
    mask_query_results_sq [[("email", PyVal.str "@example.com")]] =
      Except.error "IndexError: string index out of range" ∧
    mask_query_results_utils [[("email", PyVal.str "@example.com")]] =
      [[("email", PyVal.str "@example.com")]] :=
  ⟨rfl, rfl⟩

/-- C8 counterexample: `month=0` is supplied and outside `1..12`, yet
`get_top_root_causes` does not raise — Python's `if month and (...)` treats
`0` as absent — so the claimed "rejects any out-of-range month" is false as
stated. -/
theorem c8_counterexample :
    kpiValidate 2025 2025 (Option.some 0) 10 Option.none = Option.none ∧
    get_top_root_causes 2025 (fun _ => []) 2025 (Option.some 0) 10
      Option.none Option.none 0 = Except.ok [] :=
  ⟨rfl, rfl⟩

/-- C8 (amended): `get_top_root_causes` raises a validation `ValueError`
exactly when the year is outside `[2020, current_year + 1]`, or a NONZERO
month outside `1..12` is supplied, or `top_n` is outside `1..100`, or a
non-empty `severity_filter` whose lower-casing is not one of
critical/high/medium/low is supplied; and under arguments passing validation,
a mart returning zero rows yields the empty list without raising. -/
theorem c8_kpi_validation (cy year : Int) (month : Option Int) (top_n : Int)
    (category_filter severity_filter : Option String) (min_tickets : Int) :
    ((kpiValidate cy year month top_n severity_filter).isSome = true ↔
      ((year < 2020 ∨ year > cy + 1) ∨
       (optIntTruthy month = true ∧ ((month.getD 0) < 1 ∨ (month.getD 0) > 12)) ∨
       (top_n < 1 ∨ top_n > 100) ∨
       (optStrTruthy severity_filter = true ∧
         pyLower (severity_filter.getD "") ∉ validSeverities))) ∧
    (kpiValidate cy year month top_n severity_filter = Option.none →
      get_top_root_causes cy (fun _ => []) year month top_n
        category_filter severity_filter min_tickets = Except.ok []) := by
  constructor
  · unfold kpiValidate
    split_ifs with hy hm hn hs <;> simp_all
  · intro h
    unfold get_top_root_causes
    rw [h]
    rfl

/-- C8 witness: `top_root_causes(year=2025, month=9, top_n=5)` on an empty
mart returns the empty list without raising. -/
theorem c8_witness :
    get_top_root_causes 2025 (fun _ => []) 2025 (Option.some 9) 5
      Option.none Option.none 0 = Except.ok [] :=
  (c8_kpi_validation 2025 2025 (Option.some 9) 5 Option.none Option.none 0).2 rfl

/-- C10: when `conversation_id` is absent from the store (or expired, which
`get_conversation` reports as absent after deleting it), `add_message` does
not append the message: its recovery branch creates a fresh conversation under
the newly generated uuid id `new_id`, then subscripts the store with the
original — still missing — id and raises `KeyError`; the post-state holds only
the fresh empty conversation in addition to the untouched entries. -/
theorem c10_add_message_keyerror (mgr : ConvManager) (new_id : String) (now : Nat)
    (conversation_id role content : String)
    (h1 : (getConversation mgr now conversation_id).1 = Option.none)
    (h2 : ¬(new_id = conversation_id)) :
    addMessage mgr new_id now conversation_id role content =
      (createConversation (getConversation mgr now conversation_id).2 new_id now,
       Except.error ("KeyError: " ++ conversation_id)) := by
  have h3 := getConversation_none_lookup mgr now conversation_id h1
  have h4 : convLookup
      (createConversation (getConversation mgr now conversation_id).2 new_id now).conversations
      conversation_id = Option.none := by
    unfold createConversation
    exact convLookup_append_single _ _ _ _ h3 h2
  unfold addMessage
  rw [h1, h4]

/-- C10 witness: an empty store, a missing conversation id, and a distinct
fresh uuid id — the message is dropped with a `KeyError`. -/
theorem c10_witness :
    addMessage ⟨[], 10, 24⟩ "conv_b3f2a9c4d7e1" 5 "conv_000000000000" "user" "hello" =
      (createConversation (getConversation ⟨[], 10, 24⟩ 5 "conv_000000000000").2
        "conv_b3f2a9c4d7e1" 5,
       Except.error ("KeyError: " ++ "conv_000000000000")) :=
  c10_add_message_keyerror ⟨[], 10, 24⟩ "conv_b3f2a9c4d7e1" 5 "conv_000000000000"
    "user" "hello" rfl (by decide)

theorem executePrepare_ok_gates {q : String} {ps : Option (List (String × PyVal))}
    {mr : Option Int} {plan : QueryPlan}
    (hp : executePrepare q ps mr = Except.ok plan) :
    (pyStrip q.data).isEmpty = false ∧ is_read_only q = true ∧
      validate_sql_query q = Option.none := by
  unfold executePrepare at hp
  by_cases h1 : (pyStrip q.data).isEmpty = true
  · rw [if_pos h1] at hp
    exact absurd hp (by simp)
  · rw [if_neg h1] at hp
    by_cases h2 : is_read_only q = false
    · rw [if_pos h2] at hp
      exact absurd hp (by simp)
    · rw [if_neg h2] at hp
      cases h3 : validate_sql_query q with
      | some e =>
        rw [h3] at hp
        exact absurd hp (by simp)
      | none =>
        exact ⟨by simpa using h1, by simpa using h2, rfl⟩

theorem executePrepare_noparams (q : String) (mr : Option Int)
    (h1 : (pyStrip q.data).isEmpty = false) (h2 : is_read_only q = true)
    (h3 : validate_sql_query q = Option.none) :
    executePrepare q Option.none mr = Except.ok
      ⟨(if containsSub "LIMIT".data (q.data.map Char.toUpper) = false ∧ effectiveMaxRows mr ≠ 0
         then ⟨pyRstripSemi q.data⟩ ++ " LIMIT " ++ toString (effectiveMaxRows mr + 1) else q),
       [], effectiveMaxRows mr⟩ := by
  unfold executePrepare
  rw [if_neg (by simp [h1]), if_neg (by simp [h2]), h3]
  rfl

/-- C1 counterexample: `"SELECT 1 -- DROP"` contains `DROP` as a whole word
outside any quoted literal, yet validation passes and preparation succeeds,
because `is_read_only` strips `--` comments before the keyword scan.  (The
converse direction also fails: keywords such as `DO` beyond the claim's list
of seven are rejected even inside quoted literals.) -/
theorem c1_counterexample :
    specContainsWordOutsideQuotes "DROP" "SELECT 1 -- DROP" = true ∧
    executePrepare "SELECT 1 -- DROP" Option.none Option.none =
      Except.ok ⟨"SELECT 1 -- DROP LIMIT 1001", [], 1000⟩ :=
  ⟨by decide, by rfl⟩

/-- C1 (amended): for every query whose comment-stripped, upper-cased,
whitespace-trimmed text contains one of the fifteen denylisted keywords
(INSERT, UPDATE, DELETE, DROP, CREATE, ALTER, TRUNCATE, REPLACE, MERGE,
GRANT, REVOKE, EXEC, EXECUTE, CALL, DO) as a whole word — quoted literals
included, comments excluded — `execute_sql_query` raises a `ValueError`
before any database connection is opened; and every non-empty query within
the length cap whose normalised text starts with SELECT or WITH, contains
none of those keywords, and matches none of the dangerous patterns
(`;`+SELECT/WITH, pg_sleep, dblink, COPY+whitespace, lo_import, lo_export,
INTO OUTFILE, load_file) passes validation and yields a query plan. -/
theorem c1_sql_validation (q : String) :
    ((∃ kw ∈ writeKeywords, containsWord kw.data (normalizedSql q) = true) →
      ∃ e, executePrepare q Option.none Option.none = Except.error e) ∧
    ((("SELECT".data.isPrefixOf (normalizedSql q) = true ∨
        "WITH".data.isPrefixOf (normalizedSql q) = true) ∧
      (∀ kw ∈ writeKeywords, containsWord kw.data (normalizedSql q) = false) ∧
      (pyStrip q.data).isEmpty = false ∧
      q.length ≤ MAX_QUERY_LENGTH ∧
      semiThenKw "SELECT".data (q.data.map Char.toUpper) = false ∧
      semiThenKw "WITH".data (q.data.map Char.toUpper) = false ∧
      containsSub "PG_SLEEP".data (q.data.map Char.toUpper) = false ∧
      containsSub "DBLINK".data (q.data.map Char.toUpper) = false ∧
      hasCopySpace (q.data.map Char.toUpper) = false ∧
      containsSub "LO_IMPORT".data (q.data.map Char.toUpper) = false ∧
      containsSub "LO_EXPORT".data (q.data.map Char.toUpper) = false ∧
      hasIntoOutfileAux Option.none (q.data.map Char.toUpper) = false ∧
      containsWord "LOAD_FILE".data (q.data.map Char.toUpper) = false) →
      ∃ p, executePrepare q Option.none Option.none = Except.ok p) := by
  constructor
  · rintro ⟨kw, hkw, hc⟩
    by_cases h1 : (pyStrip q.data).isEmpty = true
    · refine ⟨"Query cannot be empty", ?_⟩
      unfold executePrepare
      rw [if_pos h1]
    · have hro : is_read_only q = false := by
        unfold is_read_only
        rw [if_pos]
        exact List.any_eq_true.mpr ⟨kw, hkw, hc⟩
      refine ⟨"Only SELECT queries are allowed. DELETE, UPDATE, DROP, INSERT, ALTER, and other write operations are forbidden.", ?_⟩
      unfold executePrepare
      rw [if_neg h1, if_pos hro]
  · rintro ⟨hstart, hkw, hne, hlen, hs1, hs2, hp1, hp2, hcp, hli, hle, hio, hlf⟩
    have hro : is_read_only q = true := by
      have hanyf : (writeKeywords.any fun kw => containsWord kw.data (normalizedSql q)) = false := by
        rw [List.any_eq_false]
        intro kw hmem
        simp [hkw kw hmem]
      unfold is_read_only
      simp only [hanyf, Bool.false_eq_true, if_false]
      rcases hstart with h | h <;> simp [h]
    have hv : validate_sql_query q = Option.none := by
      unfold validate_sql_query
      rw [if_neg (by simp [hne]), if_neg (by omega)]
      simp only [hs1, hs2, hp1, hp2, hcp, hli, hle, hio, hlf, Bool.false_eq_true, if_false]
    exact ⟨_, executePrepare_noparams q Option.none hne hro hv⟩

/-- C1 witness: `"DELETE FROM dim_customers"` is rejected before any
connection is opened; `"SELECT 1"` passes validation. -/
theorem c1_witness :
    (∃ e, executePrepare "DELETE FROM dim_customers" Option.none Option.none =
      Except.error e) ∧
    (∃ p, executePrepare "SELECT 1" Option.none Option.none = Except.ok p) :=
  ⟨(c1_sql_validation "DELETE FROM dim_customers").1 (by decide),
   (c1_sql_validation "SELECT 1").2 (by decide)⟩

/-- C7 counterexample: `"SELECT limit_amount FROM t"` contains no explicit
row-limiting clause (no whole-word `LIMIT`), yet `execute_sql_query` leaves
the query unchanged — the code tests for the SUBSTRING `LIMIT`, which also
occurs inside the column name `limit_amount` — so no `LIMIT max_rows+1` is
appended. -/
theorem c7_counterexample :
    specHasRowLimitClause "SELECT limit_amount FROM t" = false ∧
    executePrepare "SELECT limit_amount FROM t" Option.none Option.none =
      Except.ok ⟨"SELECT limit_amount FROM t", [], 1000⟩ :=
  ⟨by decide, by rfl⟩

/-- C7 (amended): if the validated query's upper-cased text does not contain
the substring `LIMIT` and the effective row cap (the requested cap clamped to
`MAX_RESULT_ROWS`, defaulting to it) is positive, then the prepared query is
the original with trailing semicolons stripped and ` LIMIT (max_rows + 1)`
appended, the plan's cap is the clamped cap, and the post-fetch phase returns
at most `max_rows` rows with the `truncated` flag set exactly when the
database returned more than `max_rows` rows. -/
theorem c7_row_limiting (q : String) (mr : Option Int) (plan : QueryPlan)
    (hp : executePrepare q Option.none mr = Except.ok plan)
    (hnl : containsSub "LIMIT".data (q.data.map Char.toUpper) = false)
    (heff : 1 ≤ effectiveMaxRows mr) :
    plan.maxRows = effectiveMaxRows mr ∧
    plan.query = ⟨pyRstripSemi q.data⟩ ++ " LIMIT " ++ toString (effectiveMaxRows mr + 1) ∧
    ∀ (mask_pii : Bool) (fetched : List (List (String × PyVal))) (res : SqlResult),
      executePost plan mask_pii fetched = Except.ok res →
      ((res.row_count : Int) ≤ effectiveMaxRows mr ∧
       res.row_count = res.results.length ∧
       (res.truncated = true ↔ (fetched.length : Int) > effectiveMaxRows mr)) := by
  obtain ⟨h1, h2, h3⟩ := executePrepare_ok_gates hp
  rw [executePrepare_noparams q mr h1 h2 h3] at hp
  rw [if_pos ⟨hnl, by omega⟩] at hp
  injection hp with hp2
  subst hp2
  refine ⟨rfl, rfl, ?_⟩
  intro mask_pii fetched res hpost
  obtain ⟨hrc, htr, hlen⟩ := executePost_ok hpost
  have hmr : (QueryPlan.mk
      (⟨pyRstripSemi q.data⟩ ++ " LIMIT " ++ toString (effectiveMaxRows mr + 1))
      [] (effectiveMaxRows mr)).maxRows = effectiveMaxRows mr := rfl
  refine ⟨?_, hrc, ?_⟩
  · rw [hrc, hlen]
    unfold sqlResultsAfterTrunc sqlTruncated
    by_cases ht : ((fetched.length : Int) > effectiveMaxRows mr)
    · rw [if_pos (by simpa [hmr] using ht)]
      have := pySliceTake_length_le (effectiveMaxRows mr) (by omega) fetched
      simpa using this
    · rw [if_neg (by simpa [hmr] using ht)]
      omega
  · rw [htr]
    unfold sqlTruncated
    simp [hmr]

/-- C7 witness: `"SELECT 1"` with a requested cap of 2 gets ` LIMIT 3`
appended; three fetched rows are truncated to two with the flag set. -/
theorem c7_witness :
    ((SqlResult.mk [[("a", PyVal.int 1)], [("a", PyVal.int 2)]] 2 true).row_count : Int) ≤
      effectiveMaxRows (Option.some 2) ∧
    (SqlResult.mk [[("a", PyVal.int 1)], [("a", PyVal.int 2)]] 2 true).row_count =
      (SqlResult.mk [[("a", PyVal.int 1)], [("a", PyVal.int 2)]] 2 true).results.length ∧
    ((SqlResult.mk [[("a", PyVal.int 1)], [("a", PyVal.int 2)]] 2 true).truncated = true ↔
      (([[("a", PyVal.int 1)], [("a", PyVal.int 2)], [("a", PyVal.int 3)]].length : Int) >
        effectiveMaxRows (Option.some 2))) :=
  (c7_row_limiting "SELECT 1" (Option.some 2) ⟨"SELECT 1 LIMIT 3", [], 2⟩ rfl rfl
      (by decide)).2.2
    true [[("a", PyVal.int 1)], [("a", PyVal.int 2)], [("a", PyVal.int 3)]]
    ⟨[[("a", PyVal.int 1)], [("a", PyVal.int 2)]], 2, true⟩ rfl

theorem executeToolBody_ok_from_post {post : String → PyVal → Except String PyVal}
    {url name : String} {args : List (String × PyVal)} {r : PyVal}
    (h : executeToolBody post url name args = Except.ok r) :
    ∃ u b, post u b = Except.ok r := by
  unfold executeToolBody at h
  cases hl : strLookup mcpToolMap name with
  | none =>
    rw [hl] at h
    exact absurd h (by simp)
  | some tid =>
    rw [hl] at h
    have h2 : (match mcpBodyFor name tid args with
        | Except.error e => Except.error e
        | Except.ok mcp_body => post (url ++ "/tools/call") mcp_body) = Except.ok r := h
    cases hm : mcpBodyFor name tid args with
    | error e =>
      rw [hm] at h2
      exact absurd h2 (by simp)
    | ok b =>
      rw [hm] at h2
      exact ⟨_, _, h2⟩

/-- C3: `execute_tool` has no failure mode (it is a total function in this
model, mirroring the catch-all `except` in the source): for every tool name
and argument mapping it returns a `ToolCall` with exactly one of
`result`/`error` populated — provided the dispatch backend honours the wire
contract of answering successful calls with a non-null JSON body — and any
tool name outside sql_query/kb_search/kpi_top_root_causes yields the
`Unknown tool` error. -/
theorem c3_execute_tool_envelope (post : String → PyVal → Except String PyVal)
    (mcp_server_url tool_name : String) (args : List (String × PyVal))
    (hpost : ∀ u b r, post u b = Except.ok r → isNoneVal r = false) :
    ((isNoneVal (execute_tool post mcp_server_url tool_name args).result = false ∧
      (execute_tool post mcp_server_url tool_name args).error = Option.none) ∨
     (isNoneVal (execute_tool post mcp_server_url tool_name args).result = true ∧
      (execute_tool post mcp_server_url tool_name args).error ≠ Option.none)) ∧
    (tool_name ∉ ["sql_query", "kb_search", "kpi_top_root_causes"] →
      (execute_tool post mcp_server_url tool_name args).error =
        Option.some ("Unknown tool: " ++ tool_name)) := by
  constructor
  · cases hb : executeToolBody post mcp_server_url tool_name args with
    | ok r =>
      obtain ⟨u, b, hub⟩ := executeToolBody_ok_from_post hb
      left
      unfold execute_tool
      rw [hb]
      exact ⟨hpost u b r hub, rfl⟩
    | error e =>
      right
      unfold execute_tool
      rw [hb]
      exact ⟨rfl, by simp⟩
  · intro hnm
    simp only [List.mem_cons, not_or] at hnm
    obtain ⟨hn1, hn2, hn3, -⟩ := hnm
    have hl : strLookup mcpToolMap tool_name = Option.none := by
      unfold strLookup mcpToolMap
      have e1 : ¬("sql_query" = tool_name) := fun h => hn1 h.symm
      have e2 : ¬("kb_search" = tool_name) := fun h => hn2 h.symm
      have e3 : ¬("kpi_top_root_causes" = tool_name) := fun h => hn3 h.symm
      simp [List.find?, e1, e2, e3]
    have hb : executeToolBody post mcp_server_url tool_name args =
        Except.error ("Unknown tool: " ++ tool_name) := by
      unfold executeToolBody
      rw [hl]
    unfold execute_tool
    rw [hb]

/-- A dispatch backend for the witnesses: always answers with a JSON object. -/
def okPost (_ : String) (_ : PyVal) : Except String PyVal :=
  Except.ok (PyVal.dict [("success", PyVal.bool true)])

theorem okPost_nonnull : ∀ u b r, okPost u b = Except.ok r → isNoneVal r = false := by
  intro u b r h
  unfold okPost at h
  injection h with h2
  subst h2
  rfl

/-- C3 witness: an unknown tool name yields a structured error, and a known
tool against a contract-honouring backend yields a populated result. -/
theorem c3_witness :
    (execute_tool okPost "http://localhost:8000" "bogus_tool" []).error =
      Option.some ("Unknown tool: " ++ "bogus_tool") ∧
    ((isNoneVal (execute_tool okPost "http://localhost:8000" "sql_query"
        [("query", PyVal.str "SELECT 1")]).result = false ∧
      (execute_tool okPost "http://localhost:8000" "sql_query"
        [("query", PyVal.str "SELECT 1")]).error = Option.none) ∨
     (isNoneVal (execute_tool okPost "http://localhost:8000" "sql_query"
        [("query", PyVal.str "SELECT 1")]).result = true ∧
      (execute_tool okPost "http://localhost:8000" "sql_query"
        [("query", PyVal.str "SELECT 1")]).error ≠ Option.none)) :=
  ⟨(c3_execute_tool_envelope okPost "http://localhost:8000" "bogus_tool" []
      okPost_nonnull).2 (by decide),
   (c3_execute_tool_envelope okPost "http://localhost:8000" "sql_query"
      [("query", PyVal.str "SELECT 1")] okPost_nonnull).1⟩

theorem execute_tool_fields (post : String → PyVal → Except String PyVal)
    (url n : String) (a : List (String × PyVal)) :
    (execute_tool post url n a).tool_name = n ∧ (execute_tool post url n a).parameters = a := by
  unfold execute_tool
  cases hb : executeToolBody post url n a <;> exact ⟨rfl, rfl⟩

/-- C9: `execute_tools` returns exactly one `ToolCall` per requested call, in
request order: the i-th result records the i-th request's tool name and
parameters, regardless of individual success or failure. -/
theorem c9_execute_tools_order (post : String → PyVal → Except String PyVal)
    (url : String) (calls : List (String × List (String × PyVal))) :
    (execute_tools post url calls).length = calls.length ∧
    ∀ (i : Fin calls.length),
      ((execute_tools post url calls).get
          (Fin.cast (by simp [execute_tools]) i)).tool_name = (calls.get i).1 ∧
      ((execute_tools post url calls).get
          (Fin.cast (by simp [execute_tools]) i)).parameters = (calls.get i).2 := by
  constructor
  · simp [execute_tools]
  · intro i
    have hg : (execute_tools post url calls).get (Fin.cast (by simp [execute_tools]) i) =
        execute_tool post url (calls.get i).1 (calls.get i).2 := by
      unfold execute_tools
      simp [List.get_eq_getElem, List.getElem_map]
    rw [hg]
    exact execute_tool_fields post url (calls.get i).1 (calls.get i).2

/-- C9 witness: two requested calls (one of them an unknown tool) give two
results carrying the requested names and parameters in order. -/
theorem c9_witness :
    (execute_tools okPost "u"
      [("kb_search", [("query", PyVal.str "loan")]), ("bogus", [])]).length =
      ([("kb_search", [("query", PyVal.str "loan")]), ("bogus", [])] :
        List (String × List (String × PyVal))).length ∧
    (((execute_tools okPost "u"
        [("kb_search", [("query", PyVal.str "loan")]), ("bogus", [])]).get
          ⟨1, by decide⟩).tool_name = "bogus" ∧
      ((execute_tools okPost "u"
        [("kb_search", [("query", PyVal.str "loan")]), ("bogus", [])]).get
          ⟨1, by decide⟩).parameters = []) :=
  ⟨(c9_execute_tools_order okPost "u"
      [("kb_search", [("query", PyVal.str "loan")]), ("bogus", [])]).1,
   (c9_execute_tools_order okPost "u"
      [("kb_search", [("query", PyVal.str "loan")]), ("bogus", [])]).2 ⟨1, by decide⟩⟩

/-- A raw chunk carrying only a title, for the C6 scenarios. -/
def kbRawMk (t : String) : KbRaw :=
  ⟨Option.some t, Option.none, Option.none, Option.none, Option.none,
   Option.none, Option.none, Option.none, Option.none⟩

/-- A vector-search backend for the C6 counterexample: with a category filter
it has hits only at floor 3/10 (chunk A); without one it has hits only at
floor 3/10 (chunk B). -/
def c6Oracle (_ : String) (_ : Int) (cat : Option String) (sim : ℚ) : List KbRaw :=
  if cat.isSome then (if sim = 3/10 then [kbRawMk "A"] else [])
  else (if sim = 3/10 then [kbRawMk "B"] else [])

theorem isEmpty_false_of_ne {α : Type} {l : List α} (h : l ≠ []) : l.isEmpty = false := by
  cases l with
  | nil => exact absurd rfl h
  | cons a as => rfl

/-- The initial similarity floor used in the C6 counterexample (`0.2`, kept
behind a name so `simp` treats it atomically). -/
def c6Floor : ℚ := 1/5

theorem c6Oracle_eval1 : c6Oracle "loan" 5 (Option.some "product_guide") c6Floor = [] := by
  unfold c6Oracle
  rw [if_pos (by rfl), if_neg (by norm_num [c6Floor])]

theorem c6Oracle_eval2 : c6Oracle "loan" 5 (Option.some "product_guide") (3/10) =
    [kbRawMk "A"] := by
  unfold c6Oracle
  rw [if_pos (by rfl), if_pos rfl]

theorem c6Oracle_eval3 : c6Oracle "loan" 5 Option.none (3/10) = [kbRawMk "B"] := by
  unfold c6Oracle
  rw [if_neg (by simp), if_pos rfl]

/-- C6 counterexample: with `min_similarity = 1/5` (valid, below 3/10) and an
empty initial result, the claimed ladder's rung 1 (unconditional retry at
floor 3/10 with the same category) would return chunk A, but the code guards
rung 1 with `min_similarity > 0.3` and skips straight to rung 2, returning
chunk B — an observably different result. -/
theorem c6_counterexample :
    search_knowledge_base_tool c6Oracle "loan" 5 (Option.some "product_guide") c6Floor true =
      Except.ok [formatKbResult (kbRawMk "B")] ∧
    claimedFallbackLadder c6Oracle "loan" 5 (Option.some "product_guide") c6Floor =
      [formatKbResult (kbRawMk "A")] ∧
    formatKbResult (kbRawMk "A") ≠ formatKbResult (kbRawMk "B") := by
  have htruthy : optStrTruthy (Option.some "product_guide") = true := by decide
  have hlt : ¬(c6Floor > 3/10) := by norm_num [c6Floor]
  have hfb : kbFallback c6Oracle "loan" 5 (Option.some "product_guide") c6Floor true =
      [kbRawMk "B"] := by
    unfold kbFallback
    simp [c6Oracle_eval1, c6Oracle_eval3, htruthy, hlt]
  refine ⟨?_, ?_, ?_⟩
  · unfold search_knowledge_base_tool
    rw [if_neg (by decide), if_neg (by decide), if_neg (by norm_num [c6Floor]),
      if_neg (by intro hcc; exact hcc.2 (by simp [validCategories])), hfb]
    rfl
  · unfold claimedFallbackLadder
    simp [c6Oracle_eval1, c6Oracle_eval2, hlt]
  · intro h
    have h2 := congrArg KbFormatted.title h
    simp [formatKbResult, kbRawMk] at h2

/-- C6 (amended): with fallback enabled and valid inputs, the adapter applies
the ladder only when the initial search is empty; rung 1 (floor 3/10, same
category) fires ONLY IF the initial floor exceeds 3/10, rung 2 (floor 3/10,
no category) only if a category filter was set and everything before was
empty, rung 3 (floor 0, no category) as the unconditional last resort; the
first non-empty rung's chunks are returned formatted, and the empty list —
never an exception — is returned when all rungs are empty. -/
theorem c6_fallback_ladder (sk : String → Int → Option String → ℚ → List KbRaw)
    (query : String) (top_k : Int) (category : Option String) (ms : ℚ)
    (hq : (pyStrip query.data).isEmpty = false)
    (hk1 : 1 ≤ top_k) (hk2 : top_k ≤ 20)
    (hs1 : 0 ≤ ms) (hs2 : ms ≤ 1)
    (hc : optStrTruthy category = true → (category.getD "") ∈ validCategories) :
    (sk query top_k category ms ≠ [] →
      search_knowledge_base_tool sk query top_k category ms true =
        Except.ok ((sk query top_k category ms).map formatKbResult)) ∧
    (sk query top_k category ms = [] → ms > 3/10 → sk query top_k category (3/10) ≠ [] →
      search_knowledge_base_tool sk query top_k category ms true =
        Except.ok ((sk query top_k category (3/10)).map formatKbResult)) ∧
    (sk query top_k category ms = [] →
      (ms ≤ 3/10 ∨ sk query top_k category (3/10) = []) →
      optStrTruthy category = true → sk query top_k Option.none (3/10) ≠ [] →
      search_knowledge_base_tool sk query top_k category ms true =
        Except.ok ((sk query top_k Option.none (3/10)).map formatKbResult)) ∧
    (sk query top_k category ms = [] →
      (ms ≤ 3/10 ∨ sk query top_k category (3/10) = []) →
      (optStrTruthy category = false ∨ sk query top_k Option.none (3/10) = []) →
      search_knowledge_base_tool sk query top_k category ms true =
        Except.ok ((sk query top_k Option.none 0).map formatKbResult)) := by
  have hok : search_knowledge_base_tool sk query top_k category ms true =
      Except.ok ((kbFallback sk query top_k category ms true).map formatKbResult) := by
    unfold search_knowledge_base_tool
    rw [if_neg (by simp [hq]), if_neg (by omega),
      if_neg (by simp only [not_or, not_lt]; exact ⟨hs1, hs2⟩),
      if_neg (by intro hcc; exact hcc.2 (hc hcc.1))]
  have hre : ms ≤ 3/10 ∨ sk query top_k category (3/10) = [] →
      (if ms > 3/10 then sk query top_k category (3/10)
        else ([] : List KbRaw)) = [] := by
    intro hr1
    rcases hr1 with h | h
    · rw [if_neg (not_lt_of_ge h)]
    · by_cases h4 : ms > 3/10
      · rw [if_pos h4]; exact h
      · rw [if_neg h4]
  refine ⟨?_, ?_, ?_, ?_⟩
  · intro hinit
    rw [hok]
    have hfb : kbFallback sk query top_k category ms true = sk query top_k category ms := by
      unfold kbFallback
      simp [isEmpty_false_of_ne hinit]
    rw [hfb]
  · intro hinit hms h1
    rw [hok]
    have hfb : kbFallback sk query top_k category ms true =
        sk query top_k category (3/10) := by
      unfold kbFallback
      simp [hinit, hms, isEmpty_false_of_ne h1]
    rw [hfb]
  · intro hinit hr1 hcat h2
    rw [hok]
    have hfb : kbFallback sk query top_k category ms true =
        sk query top_k Option.none (3/10) := by
      unfold kbFallback
      simp [hinit, hre hr1, hcat, isEmpty_false_of_ne h2]
    rw [hfb]
  · intro hinit hr1 hlast
    rw [hok]
    have hfb : kbFallback sk query top_k category ms true =
        sk query top_k Option.none 0 := by
      unfold kbFallback
      rcases hlast with h | h
      · simp [hinit, hre hr1, h]
      · by_cases hcat : optStrTruthy category = true
        · simp [hinit, hre hr1, hcat, h]
        · have hcf : optStrTruthy category = false := by
            revert hcat
            cases optStrTruthy category <;> simp
          simp [hinit, hre hr1, hcf]
    rw [hfb]

/-- A vector-search backend for the C6 witness: hits at every floor. -/
def c6WitnessOracle (_ : String) (_ : Int) (_ : Option String) (_ : ℚ) : List KbRaw :=
  [kbRawMk "X"]

/-- C6 witness: a non-empty initial search is returned as-is, formatted. -/
theorem c6_witness :
    search_knowledge_base_tool c6WitnessOracle "loan" 5 Option.none (1/2) true =
      Except.ok ((c6WitnessOracle "loan" 5 Option.none (1/2)).map formatKbResult) :=
  (c6_fallback_ladder c6WitnessOracle "loan" 5 Option.none (1/2)
    (by decide) (by decide) (by decide) (by norm_num) (by norm_num)
    (by intro h; exact absurd h (by decide))).1 (by simp [c6WitnessOracle])

theorem mask_query_results_sq_eq (l : List (List (String × PyVal))) :
    mask_query_results_sq l = maskRowsSq l := by
  cases l <;> rfl

theorem mask_value_customer_uuid (v : PyVal) :
    mask_value_sq v "customer_uuid" = Except.ok v := by
  unfold mask_value_sq
  rw [if_pos (Or.inr (by decide))]

theorem mask_value_email (e : String) (h1 : containsSub ['@'] e.data = true)
    (h2 : (splitAtFirst '@' e.data).1 ≠ []) :
    mask_value_sq (PyVal.str e) "email" =
      Except.ok (PyVal.str (⟨(splitAtFirst '@' e.data).1.take 1⟩ ++ "***@" ++
        ⟨(splitAtFirst '@' e.data).2⟩)) := by
  obtain ⟨c, rest, hc⟩ : ∃ c rest, (splitAtFirst '@' e.data).1 = c :: rest := by
    cases hsp : (splitAtFirst '@' e.data).1 with
    | nil => exact absurd hsp h2
    | cons c rest => exact ⟨c, rest, rfl⟩
  unfold mask_value_sq
  have hps : pyStr (PyVal.str e) = e := rfl
  rw [if_neg (by simp [isNoneVal, (by decide : is_pii_field "email" = true)]),
    if_pos (And.intro (by decide) (by rw [hps]; exact h1))]
  rw [hps, hc]
  rfl

/-- The two-column result row of C5's scenario (`SELECT customer_uuid, email`),
built from a (uuid, email) pair. -/
def c5Row (p : String × String) : List (String × PyVal) :=
  [("customer_uuid", PyVal.str p.1), ("email", PyVal.str p.2)]

/-- What the claim says masking produces for such a row: the uuid unchanged,
the email reduced to the first character of its local part, `***@`, and the
original domain. -/
def c5MaskedRow (p : String × String) : List (String × PyVal) :=
  [("customer_uuid", PyVal.str p.1),
   ("email", PyVal.str (⟨(splitAtFirst '@' p.2.data).1.take 1⟩ ++ "***@" ++
     ⟨(splitAtFirst '@' p.2.data).2⟩))]

theorem c5_rows_aux (rows : List (String × String))
    (h : ∀ p ∈ rows, containsSub ['@'] p.2.data = true ∧ (splitAtFirst '@' p.2.data).1 ≠ []) :
    maskRowsSq (rows.map c5Row) = Except.ok (rows.map c5MaskedRow) := by
  induction rows with
  | nil => rfl
  | cons p rest ih =>
    have hp := h p (by simp)
    have hrow : maskRowSq (c5Row p) = Except.ok (c5MaskedRow p) := by
      unfold c5Row c5MaskedRow
      simp [maskRowSq, mask_value_customer_uuid, mask_value_email p.2 hp.1 hp.2]
    have hrest := ih (fun q hq => h q (by simp [hq]))
    simp only [List.map_cons]
    unfold maskRowsSq
    rw [hrow, hrest]

/-- C5: masking rows of the `SELECT customer_uuid, email` shape with
`mask_pii=true` leaves every `customer_uuid` unchanged and rewrites every
`email` value (whose string contains `@` with a non-empty local part) to the
first character of the local part, `***@`, and the original domain. -/
theorem c5_email_uuid_masking (rows : List (String × String))
    (h : ∀ p ∈ rows, containsSub ['@'] p.2.data = true ∧ (splitAtFirst '@' p.2.data).1 ≠ []) :
    mask_query_results_sq (rows.map c5Row) = Except.ok (rows.map c5MaskedRow) := by
  rw [mask_query_results_sq_eq]
  exact c5_rows_aux rows h

/-- C5 witness: a concrete two-row result set. -/
theorem c5_witness :
    mask_query_results_sq
      ([("u-1", "john.doe@example.com"), ("u-2", "a@b.io")].map c5Row) =
      Except.ok ([("u-1", "john.doe@example.com"), ("u-2", "a@b.io")].map c5MaskedRow) :=
  c5_email_uuid_masking [("u-1", "john.doe@example.com"), ("u-2", "a@b.io")] (by decide)

-- =====================================================
-- C2: query templates as alternations of literal text and placeholders
-- =====================================================

/-- A segment of a query template: literal SQL text, or a named placeholder. -/
inductive Seg where
  | lit (s : List Char)
  | ph (n : List Char)
deriving Repr, DecidableEq

/-- Render a template: placeholders appear in their bracketed syntax. -/
def renderL : List Seg → List Char
  | [] => []
  | Seg.lit s :: rest => s ++ renderL rest
  | Seg.ph n :: rest => phPat n ++ renderL rest

/-- The placeholder names of a template, in order of occurrence. -/
def phNames : List Seg → List (List Char)
  | [] => []
  | Seg.lit _ :: rest => phNames rest
  | Seg.ph n :: rest => n :: phNames rest

/-- Render a template with every placeholder replaced by the positional
marker `%s`. -/
def renderPosL : List Seg → List Char
  | [] => []
  | Seg.lit s :: rest => s ++ renderPosL rest
  | Seg.ph _ :: rest => '%' :: 's' :: renderPosL rest

/-- A literal chunk is brace-free. -/
def litOkB (s : List Char) : Bool :=
  s.all (fun c => !(c = obr) && !(c = cbr))

/-- A placeholder name is non-empty and made of word characters. -/
def nameOkB (n : List Char) : Bool :=
  !n.isEmpty && n.all isWordChar

/-- Well-formedness of one segment. -/
def segOkB : Seg → Bool
  | Seg.lit s => litOkB s
  | Seg.ph n => nameOkB n

/-- Well-formedness of a template. -/
def wfSegsB (segs : List Seg) : Bool :=
  segs.all segOkB

theorem takeWhile_append_all {p : Char → Bool} :
    ∀ {n l : List Char}, (∀ c ∈ n, p c = true) →
      (n ++ l).takeWhile p = n ++ l.takeWhile p := by
  intro n
  induction n with
  | nil => intro l _; rfl
  | cons c cs ih =>
    intro l h
    have hc : p c = true := h c (by simp)
    simp only [List.cons_append, List.takeWhile_cons, hc, if_true]
    rw [ih (fun d hd => h d (by simp [hd]))]

theorem dropWhile_append_all {p : Char → Bool} :
    ∀ {n l : List Char}, (∀ c ∈ n, p c = true) →
      (n ++ l).dropWhile p = l.dropWhile p := by
  intro n
  induction n with
  | nil => intro l _; rfl
  | cons c cs ih =>
    intro l h
    have hc : p c = true := h c (by simp)
    simp only [List.cons_append, List.dropWhile_cons, hc, if_true]
    exact ih (fun d hd => h d (by simp [hd]))

theorem findAllPhFuel_congr :
    ∀ (f1 : Nat) (l : List Char) (f2 : Nat), l.length ≤ f1 → l.length ≤ f2 →
      findAllPhFuel f1 l = findAllPhFuel f2 l := by
  intro f1
  induction f1 with
  | zero =>
    intro l f2 h1 _
    have hl : l = [] := List.length_eq_zero.mp (Nat.le_zero.mp h1)
    subst hl
    cases f2 <;> rfl
  | succ a ih =>
    intro l f2 h1 h2
    cases l with
    | nil => cases f2 <;> rfl
    | cons c cs =>
      cases f2 with
      | zero => simp at h2
      | succ b =>
        rw [findAllPhFuel, findAllPhFuel]
        cases hm : phMatchAt (c :: cs) with
        | some wr =>
          obtain ⟨w, r⟩ := wr
          have hr := phMatchAt_length hm
          simp only [List.length_cons] at h1 h2 hr
          dsimp only
          rw [ih r b (by omega) (by omega)]
        | none =>
          simp only [List.length_cons] at h1 h2
          dsimp only
          exact ih cs b (by omega) (by omega)

theorem findAllPh_cons (c : Char) (cs : List Char) :
    findAllPh (c :: cs) =
      (match phMatchAt (c :: cs) with
       | Option.some (w, r) => w :: findAllPh r
       | Option.none => findAllPh cs) := by
  unfold findAllPh
  rw [show (c :: cs).length = cs.length + 1 from rfl, findAllPhFuel]
  cases hm : phMatchAt (c :: cs) with
  | some wr =>
    obtain ⟨w, r⟩ := wr
    have hr := phMatchAt_length hm
    simp only [List.length_cons] at hr
    dsimp only
    rw [findAllPhFuel_congr cs.length r r.length (by omega) (by omega)]
  | none =>
    rfl

theorem phMatchAt_none_head {c : Char} (hc : ¬ c = obr) (cs : List Char) :
    phMatchAt (c :: cs) = Option.none := by
  cases cs with
  | nil => rfl
  | cons c2 r =>
    unfold phMatchAt
    dsimp only
    rw [if_neg (fun hp => hc hp.1)]

theorem findAllPh_append_lit {s : List Char} (t : List Char)
    (hs : ∀ c ∈ s, ¬ c = obr) :
    findAllPh (s ++ t) = findAllPh t := by
  induction s with
  | nil => rfl
  | cons c cs ih =>
    rw [List.cons_append, findAllPh_cons,
      phMatchAt_none_head (hs c (by simp)) (cs ++ t)]
    exact ih (fun d hd => hs d (by simp [hd]))

theorem phMatchAt_phPat {n : List Char} (t : List Char)
    (hn : nameOkB n = true) :
    phMatchAt (phPat n ++ t) = Option.some (n, t) := by
  obtain ⟨hne, hword⟩ : (!n.isEmpty) = true ∧ n.all isWordChar = true := by
    simpa [nameOkB] using hn
  have hwordp : ∀ c ∈ n, isWordChar c = true := by
    intro c hc
    exact List.all_eq_true.mp hword c hc
  have hshape : phPat n ++ t = obr :: obr :: (n ++ (cbr :: cbr :: t)) := by
    simp [phPat]
  rw [hshape]
  unfold phMatchAt
  dsimp only
  rw [if_pos ⟨rfl, rfl⟩]
  have hdrop : (n ++ (cbr :: cbr :: t)).dropWhile isWordChar = cbr :: cbr :: t := by
    rw [dropWhile_append_all hwordp]
    rw [List.dropWhile_cons, if_neg (by decide)]
  have htake : (n ++ (cbr :: cbr :: t)).takeWhile isWordChar = n := by
    rw [takeWhile_append_all hwordp]
    rw [List.takeWhile_cons, if_neg (by decide), List.append_nil]
  rw [hdrop]
  dsimp only
  rw [if_pos ⟨rfl, rfl, by rw [htake]; simpa using hne⟩, htake]

theorem findAllPh_ph {n : List Char} (t : List Char) (hn : nameOkB n = true) :
    findAllPh (phPat n ++ t) = n :: findAllPh t := by
  have hshape : phPat n ++ t = obr :: (obr :: (n ++ (cbr :: cbr :: []))) ++ t := by
    simp [phPat]
  rw [hshape, List.cons_append, findAllPh_cons]
  have := phMatchAt_phPat t hn
  rw [show obr :: ((obr :: (n ++ (cbr :: cbr :: []))) ++ t) = phPat n ++ t by simp [phPat]]
  rw [this]

theorem isPrefixOf_cons_false {c d : Char} {p l : List Char} (h : ¬ d = c) :
    ((d :: p).isPrefixOf (c :: l)) = false := by
  have hb : (d == c) = false := beq_eq_false_iff_ne.mpr h
  simp [List.isPrefixOf, hb]

theorem isPrefixOf_append_self : ∀ (l t : List Char), (l.isPrefixOf (l ++ t)) = true := by
  intro l
  induction l with
  | nil => intro t; simp
  | cons c cs ih => intro t; simp [List.isPrefixOf, ih]

theorem replaceFirstL_append_pre {rep : List Char} {pt : List Char} :
    ∀ {a : List Char} (b : List Char), (∀ c ∈ a, ¬ c = obr) →
      replaceFirstL (obr :: pt) rep (a ++ b) = a ++ replaceFirstL (obr :: pt) rep b := by
  intro a
  induction a with
  | nil => intro b _; rfl
  | cons c a2 ih =>
    intro b h
    have hf : ((obr :: pt).isPrefixOf (c :: (a2 ++ b))) = false :=
      isPrefixOf_cons_false (fun he => h c (by simp) he.symm)
    rw [List.cons_append, replaceFirstL, if_neg (by rw [hf]; simp)]
    rw [ih b (fun d hd => h d (by simp [hd]))]
    rfl

theorem replaceFirstL_at_match {pat rep l : List Char} (hne : pat ≠ [])
    (hp : (pat.isPrefixOf l) = true) :
    replaceFirstL pat rep l = rep ++ l.drop pat.length := by
  cases l with
  | nil =>
    cases pat with
    | nil => exact absurd rfl hne
    | cons p ps => simp [List.isPrefixOf] at hp
  | cons c cs => rw [replaceFirstL, if_pos hp]

theorem findAllPh_render :
    ∀ (segs : List Seg), wfSegsB segs = true →
      findAllPh (renderL segs) = phNames segs := by
  intro segs
  induction segs with
  | nil => intro _; rfl
  | cons seg rest ih =>
    intro hwf
    obtain ⟨hseg, hrest⟩ : segOkB seg = true ∧ wfSegsB rest = true := by
      simpa [wfSegsB] using hwf
    cases seg with
    | lit s =>
      have hlit : ∀ c ∈ s, ¬ c = obr := by
        intro c hc
        have h2 : ∀ x ∈ s, ¬x = obr ∧ ¬x = cbr := by
          simpa [segOkB, litOkB, List.all_eq_true] using hseg
        exact (h2 c hc).1
      rw [renderL, findAllPh_append_lit (renderL rest) hlit, ih hrest]
      rfl
    | ph n =>
      have hn : nameOkB n = true := by simpa [segOkB] using hseg
      rw [renderL, findAllPh_ph (renderL rest) hn, ih hrest]
      rfl

theorem convertFold_render (params : List (String × PyVal)) :
    ∀ (segs : List Seg) (pre : List Char), wfSegsB segs = true →
      (∀ c ∈ pre, ¬ c = obr) →
      (∀ n ∈ phNames segs, (dictLookup params ⟨n⟩).isSome = true) →
      ∃ vals, convertFold params (phNames segs) (pre ++ renderL segs) =
          Except.ok (pre ++ renderPosL segs, vals) ∧
        List.Forall₂ (fun n v => dictLookup params ⟨n⟩ = Option.some v) (phNames segs) vals := by
  intro segs
  induction segs with
  | nil =>
    intro pre _ _ _
    refine ⟨[], ?_, List.Forall₂.nil⟩
    simp [phNames, convertFold, renderL, renderPosL]
  | cons seg rest ih =>
    intro pre hwf hpre hsome
    obtain ⟨hseg, hrest⟩ : segOkB seg = true ∧ wfSegsB rest = true := by
      simpa [wfSegsB] using hwf
    cases seg with
    | lit s =>
      have hlit : ∀ c ∈ s, ¬ c = obr := by
        intro c hc
        have h2 : ∀ x ∈ s, ¬x = obr ∧ ¬x = cbr := by
          simpa [segOkB, litOkB, List.all_eq_true] using hseg
        exact (h2 c hc).1
      have happ : pre ++ renderL (Seg.lit s :: rest) = (pre ++ s) ++ renderL rest := by
        simp [renderL]
      rw [show phNames (Seg.lit s :: rest) = phNames rest from rfl, happ]
      obtain ⟨vals, heq, hf⟩ := ih (pre ++ s) hrest
        (by
          intro c hc
          rcases List.mem_append.mp hc with h | h
          · exact hpre c h
          · exact hlit c h)
        (by simpa [phNames] using hsome)
      refine ⟨vals, ?_, hf⟩
      rw [heq]
      simp [renderPosL]
    | ph n =>
      have hhead : (dictLookup params ⟨n⟩).isSome = true := hsome n (by simp [phNames])
      obtain ⟨v, hv⟩ : ∃ v, dictLookup params ⟨n⟩ = Option.some v :=
        Option.isSome_iff_exists.mp hhead
      have hpp : phPat n = obr :: obr :: (n ++ cbr :: cbr :: []) := rfl
      have hrepl : replaceFirstL (phPat n) "%s".data (pre ++ renderL (Seg.ph n :: rest)) =
          (pre ++ "%s".data) ++ renderL rest := by
        have h1 : pre ++ renderL (Seg.ph n :: rest) = pre ++ (phPat n ++ renderL rest) := rfl
        rw [h1, hpp]
        rw [replaceFirstL_append_pre
          ((obr :: obr :: (n ++ cbr :: cbr :: [])) ++ renderL rest) hpre]
        rw [replaceFirstL_at_match (by simp) (isPrefixOf_append_self _ _)]
        rw [List.drop_left]
        rw [← List.append_assoc]
      obtain ⟨vals, heq, hf⟩ := ih (pre ++ "%s".data) hrest
        (by
          intro c hc
          rcases List.mem_append.mp hc with h | h
          · exact hpre c h
          · have hsl : "%s".data = ['%', 's'] := rfl
            rw [hsl] at h
            simp at h
            rcases h with he | he <;> (subst he; decide))
        (fun m hm => hsome m (List.mem_cons_of_mem n hm))
      refine ⟨v :: vals, ?_, List.Forall₂.cons hv hf⟩
      rw [show phNames (Seg.ph n :: rest) = n :: phNames rest from rfl]
      rw [convertFold, hv]
      dsimp only
      rw [hrepl, heq]
      have hstr : (pre ++ "%s".data) ++ renderPosL rest =
          pre ++ renderPosL (Seg.ph n :: rest) := by
        rw [List.append_assoc]
        rfl
      rw [hstr]

theorem convertFold_missing (params : List (String × PyVal)) :
    ∀ (names : List (List Char)) (q : List Char),
      (∃ n ∈ names, dictLookup params ⟨n⟩ = Option.none) →
      ∃ m, convertFold params names q = Except.error ("Missing parameter: " ++ ⟨m⟩) ∧
        m ∈ names ∧ dictLookup params ⟨m⟩ = Option.none := by
  intro names
  induction names with
  | nil =>
    intro q h
    simp at h
  | cons n ns ih =>
    intro q h
    cases hv : dictLookup params ⟨n⟩ with
    | none =>
      refine ⟨n, ?_, by simp, hv⟩
      rw [convertFold, hv]
    | some v =>
      have h2 : ∃ m ∈ ns, dictLookup params ⟨m⟩ = Option.none := by
        obtain ⟨m, hm, hnone⟩ := h
        rcases List.mem_cons.mp hm with he | hm2
        · subst he
          rw [hv] at hnone
          exact absurd hnone (by simp)
        · exact ⟨m, hm2, hnone⟩
      obtain ⟨m, heq, hmem, hnone⟩ := ih (replaceFirstL (phPat n) "%s".data q) h2
      refine ⟨m, ?_, by simp [hmem], hnone⟩
      rw [convertFold, hv]
      dsimp only
      rw [heq]

theorem renderPos_eq_render_of_no_ph :
    ∀ (segs : List Seg), phNames segs = [] → renderPosL segs = renderL segs := by
  intro segs
  induction segs with
  | nil => intro _; rfl
  | cons seg rest ih =>
    cases seg with
    | lit s =>
      intro h
      rw [renderPosL, renderL, ih (by simpa [phNames] using h)]
    | ph n =>
      intro h
      simp [phNames] at h

/-- C2: parameter binding over well-formed query templates (alternations of
brace-free literal text and `\x7b\x7bname\x7d\x7d` placeholders with
non-empty word-character names).  If some referenced name is missing from the
parameter map, `convert_named_to_positional` raises the missing-parameter
`ValueError`; if every referenced name is present, every placeholder
occurrence is replaced by exactly one `%s` marker (the rendered positional
template) and the returned value list pairs the placeholders' names, in order
of occurrence, with their mapped values. -/
theorem c2_parameter_binding (segs : List Seg) (params : List (String × PyVal))
    (hwf : wfSegsB segs = true) :
    ((∃ n ∈ phNames segs, dictLookup params ⟨n⟩ = Option.none) →
      ∃ m, convert_named_to_positional ⟨renderL segs⟩ params =
          Except.error ("Missing parameter: " ++ ⟨m⟩) ∧
        m ∈ phNames segs ∧ dictLookup params ⟨m⟩ = Option.none) ∧
    ((∀ n ∈ phNames segs, (dictLookup params ⟨n⟩).isSome = true) →
      ∃ vals, convert_named_to_positional ⟨renderL segs⟩ params =
          Except.ok (⟨renderPosL segs⟩, vals) ∧
        List.Forall₂ (fun n v => dictLookup params ⟨n⟩ = Option.some v)
          (phNames segs) vals) := by
  have hfa : findAllPh (String.data ⟨renderL segs⟩) = phNames segs :=
    findAllPh_render segs hwf
  constructor
  · intro hmiss
    obtain ⟨n0, hn0, -⟩ := id hmiss
    have hne : ¬ phNames segs = [] := by
      intro h
      rw [h] at hn0
      simp at hn0
    unfold convert_named_to_positional
    rw [hfa, if_neg (by simp [hne])]
    obtain ⟨m, heq, hmem, hnone⟩ :=
      convertFold_missing params (phNames segs) (String.data ⟨renderL segs⟩) hmiss
    rw [heq]
    exact ⟨m, rfl, hmem, hnone⟩
  · intro hsome
    unfold convert_named_to_positional
    rw [hfa]
    by_cases hne : phNames segs = []
    · rw [if_pos (by simp [hne])]
      refine ⟨[], ?_, by rw [hne]; exact List.Forall₂.nil⟩
      rw [renderPos_eq_render_of_no_ph segs hne]
    · rw [if_neg (by simp [hne])]
      obtain ⟨vals, heq, hf⟩ := convertFold_render params segs [] hwf (by simp) hsome
      simp only [List.nil_append] at heq
      rw [show (String.data ⟨renderL segs⟩) = renderL segs from rfl, heq]
      exact ⟨vals, rfl, hf⟩

/-- The template of the C2 witness:
`SELECT * FROM t WHERE a = \x7b\x7bx\x7d\x7d AND b = \x7b\x7by\x7d\x7d`. -/
def c2Segs : List Seg :=
  [Seg.lit "SELECT * FROM t WHERE a = ".data, Seg.ph "x".data,
   Seg.lit " AND b = ".data, Seg.ph "y".data]

/-- The parameter map of the C2 witness. -/
def c2Params : List (String × PyVal) :=
  [("x", PyVal.int 5), ("y", PyVal.str "ok")]

/-- C2 witness: both placeholders are bound positionally, values in order. -/
theorem c2_witness :
    convert_named_to_positional ⟨renderL c2Segs⟩ c2Params =
      Except.ok (⟨renderPosL c2Segs⟩, [PyVal.int 5, PyVal.str "ok"]) := by
  obtain ⟨vals, heq, hf⟩ := (c2_parameter_binding c2Segs c2Params (by decide)).2 (by decide)
  rcases hf with - | ⟨hv1, hf2⟩
  rcases hf2 with - | ⟨hv2, hf3⟩
  rcases hf3
  have e1 : Option.some (PyVal.int 5) = Option.some _ := (rfl).trans hv1
  have e2 : Option.some (PyVal.str "ok") = Option.some _ := (rfl).trans hv2
  injection e1 with e1b
  injection e2 with e2b
  rw [heq, ← e1b, ← e2b]

end DBank
